import Mathlib

/-!
Verification of the NGA conversion core (Rust sources under src/WASM/src)
against its natural-language specification.  Rust data types are embedded as
Lean structures; `HashMap` fields are embedded as association lists whose
entry order models the unordered nature of the hash map; fallible code
(`Result`) is embedded as `Except`.  The external regex crate, used only for
caller-supplied custom patterns, is abstracted as a `RegexEngine`; the five
built-in patterns of `variable_processor.rs` are implemented concretely.
-/

/-- Model of `serde_json::Value` as consumed by the converter: the code only
distinguishes string values, object values, and "anything else" (rendered by
`Value::to_string()`).  The `other` constructor carries the JSON rendering of
such a value. -/
inductive Json where
  | str (s : String)
  | obj (fields : List (String × Json))
  | other (rendering : String)
deriving Repr

/-- `Value::as_str` -/
def Json.as_str : Json → Option String
  | .str s => some s
  | _ => none

/-- `Value::as_object` (returns the field list). -/
def Json.as_object : Json → Option (List (String × Json))
  | .obj fs => some fs
  | _ => none

/-- JSON escaping used by `Value::to_string()` for string values. -/
def jsonEscape (s : String) : String :=
  String.mk (s.toList.flatMap (fun c =>
    if c = '"' then ['\\', '"']
    else if c = '\\' then ['\\', '\\']
    else [c]))

mutual

/-- `Value::to_string()` (compact JSON rendering). -/
def Json.toText : Json → String
  | .str s => "\"" ++ jsonEscape s ++ "\""
  | .obj fs => "\x7b" ++ Json.fieldsText fs ++ "\x7d"
  | .other r => r

/-- Comma-separated rendering of JSON object fields. -/
def Json.fieldsText : List (String × Json) → String
  | [] => ""
  | [(k, v)] => "\"" ++ jsonEscape k ++ "\":" ++ Json.toText v
  | (k, v) :: rest =>
      "\"" ++ jsonEscape k ++ "\":" ++ Json.toText v ++ "," ++ Json.fieldsText rest

end

-- ===========================================================================
-- Rules model (models.rs, RULES MODELS section).  `HashMap<String, _>` fields
-- become association lists.
-- ===========================================================================

structure VariablePattern where
  pattern : String
  replacement : String
  description : Option String
deriving Repr

structure VariableConversionRules where
  enabled : Option Bool
  patterns : Option (List VariablePattern)
  alert_message : Option String
  status_suffix : Option String
deriving Repr

structure BooleanFormat where
  true_val : Option String
  false_val : Option String
deriving Repr

structure ActionDefinitionRules where
  boolean_format : Option BooleanFormat
deriving Repr

structure InstructionsFormat where
  indicator : Option String
  linePrefixVal : Option String
deriving Repr

structure ReasoningFormatRules where
  instructions_format : Option InstructionsFormat
deriving Repr

structure IndentationRules where
  base : Option Nat
  nested : Option Nat
deriving Repr

structure OutputFormatRules where
  indentation : Option IndentationRules
  action_definition : Option ActionDefinitionRules
  reasoning : Option ReasoningFormatRules
deriving Repr

structure TargetFormatRules where
  target_syntax : Option String
  mappings : Option (List (String × String))
deriving Repr

structure TypeMappings where
  primitive : Option (List (String × String))
  complex : Option (List (String × String))
  default_type : Option String
deriving Repr

structure TemplateReasoning where
  instructions : Option String
  actions : Option (List (String × Json))
deriving Repr

structure TopicSelectorTemplate where
  label : Option String
  description : Option String
  reasoning : Option TemplateReasoning
deriving Repr

structure EscalationTemplate where
  label : Option String
  description : Option String
  reasoning : Option TemplateReasoning
deriving Repr

structure OffTopicTemplate where
  label : Option String
  description : Option String
  include_security_rules : Option Bool
  base_instructions : Option String
  reasoning : Option TemplateReasoning
deriving Repr

structure AmbiguousQuestionTemplate where
  label : Option String
  description : Option String
  include_security_rules : Option Bool
  base_instructions : Option String
  reasoning : Option TemplateReasoning
deriving Repr

structure Templates where
  topic_selector : Option TopicSelectorTemplate
  escalation : Option EscalationTemplate
  off_topic : Option OffTopicTemplate
  ambiguous_question : Option AmbiguousQuestionTemplate
deriving Repr

structure SecurityRules where
  default_rules : Option (List String)
deriving Repr

structure AdaptiveResponseAllowed where
  default_val : Option Bool
deriving Repr

structure ConnectionFields where
  adaptive_response_allowed : Option AdaptiveResponseAllowed
deriving Repr

structure ConnectionRules where
  fields : Option ConnectionFields
deriving Repr

structure SystemInstructionsField where
  default_val : Option String
deriving Repr

structure SystemWelcomeField where
  default_val : Option String
deriving Repr

structure SystemErrorField where
  default_val : Option String
deriving Repr

structure SystemMessagesFields where
  welcome : Option SystemWelcomeField
  error : Option SystemErrorField
deriving Repr

structure SystemMessagesField where
  fields : Option SystemMessagesFields
deriving Repr

structure SystemFields where
  instructions : Option SystemInstructionsField
  messages : Option SystemMessagesField
deriving Repr

structure SystemRules where
  fields : Option SystemFields
deriving Repr

structure LanguageDefaultLocale where
  default_val : Option String
deriving Repr

structure LanguageAllAdditionalLocales where
  default_val : Option Bool
deriving Repr

structure LanguageFields where
  default_locale : Option LanguageDefaultLocale
  all_additional_locales : Option LanguageAllAdditionalLocales
deriving Repr

structure LanguageRules where
  fields : Option LanguageFields
deriving Repr

structure ConversionRules where
  version : Option String
  variable_conversion : Option VariableConversionRules
  output_format : Option OutputFormatRules
  target_format : Option TargetFormatRules
  type_mappings : Option TypeMappings
  templates : Option Templates
  security_rules : Option SecurityRules
  connection : Option ConnectionRules
  system : Option SystemRules
  language : Option LanguageRules
deriving Repr

/-- An entirely absent rules document field set (used to build concrete rules
values in witnesses). -/
def emptyRules : ConversionRules :=
  ⟨none, none, none, none, none, none, none, none, none, none⟩

-- ===========================================================================
-- Abstract regex engine for caller-supplied custom patterns.
-- `compileOk p` models `Regex::new(p).is_ok()`; `isMatch`/`replaceAll` model
-- the behaviour of the successfully compiled regex.  The same pattern string
-- always denotes the same compiled regex, as in the source.
-- ===========================================================================

structure RegexEngine where
  compileOk : String → Bool
  isMatch : String → String → Bool
  replaceAll : String → String → String → String

/-- A trivial engine in which no custom pattern compiles (used to instantiate
witnesses; with no custom patterns supplied it is never consulted). -/
def nullEngine : RegexEngine := ⟨fun _ => false, fun _ _ => false, fun _ _ t => t⟩

-- ===========================================================================
-- Built-in placeholder patterns (variable_processor.rs).
-- `splitBrace cs` splits `cs` at its first `}`: it returns the characters
-- before it and the characters after it, or `none` when no `}` occurs.  This
-- is exactly the semantics of the greedy `[^}]*`/`[^}]+` followed by `\}` in
-- the five built-in regexes.
-- ===========================================================================

def splitBrace : List Char → Option (List Char × List Char)
  | [] => none
  | c :: rest =>
      if c = '}' then some ([], rest)
      else (splitBrace rest).map (fun p => (c :: p.1, p.2))

/-- Replacement text `{!@variables.` common to all four rewrite patterns. -/
def varHead : List Char := "\x7b!@variables.".toList

/-- Match of `VAR_PATTERN_1` = `\{!\$([^}]+)\}` at the head of the list:
returns the capture and the remainder after the match. -/
def tryPat1 (cs : List Char) : Option (List Char × List Char) :=
  match cs with
  | a :: b :: c :: rest =>
      if a = '{' ∧ b = '!' ∧ c = '$' then
        match splitBrace rest with
        | some (cap, rest') => if cap = [] then none else some (cap, rest')
        | none => none
      else none
  | _ => none

/-- Match of `VAR_PATTERN_2` = `\{\$!([^}]+)\}` at the head of the list. -/
def tryPat2 (cs : List Char) : Option (List Char × List Char) :=
  match cs with
  | a :: b :: c :: rest =>
      if a = '{' ∧ b = '$' ∧ c = '!' then
        match splitBrace rest with
        | some (cap, rest') => if cap = [] then none else some (cap, rest')
        | none => none
      else none
  | _ => none

/-- Match of `VAR_PATTERN_3` = `\{\$([^!}][^}]*)\}` at the head of the list. -/
def tryPat3 (cs : List Char) : Option (List Char × List Char) :=
  match cs with
  | a :: b :: c :: rest =>
      if a = '{' ∧ b = '$' ∧ c ≠ '!' ∧ c ≠ '}' then
        match splitBrace rest with
        | some (cap, rest') => some (c :: cap, rest')
        | none => none
      else none
  | _ => none

/-- Match of `VAR_PATTERN_4` = `\{!([^@}][^}]*)\}` at the head of the list. -/
def tryPat4 (cs : List Char) : Option (List Char × List Char) :=
  match cs with
  | a :: b :: c :: rest =>
      if a = '{' ∧ b = '!' ∧ c ≠ '@' ∧ c ≠ '}' then
        match splitBrace rest with
        | some (cap, rest') => some (c :: cap, rest')
        | none => none
      else none
  | _ => none

/-- `Regex::replace_all` for one of the four patterns, with the common
replacement `{!@variables.$1}`: leftmost non-overlapping matches, scanning
left to right; the fuel (initialised to the input length) bounds the number
of scan steps, each of which consumes at least one character. -/
def rwGen (tp : List Char → Option (List Char × List Char)) :
    Nat → List Char → List Char
  | 0, cs => cs
  | _ + 1, [] => []
  | fuel + 1, c :: rest =>
      match tp (c :: rest) with
      | some (cap, rest') => varHead ++ cap ++ '}' :: rwGen tp fuel rest'
      | none => c :: rwGen tp fuel rest

def applyPat (tp : List Char → Option (List Char × List Char))
    (cs : List Char) : List Char :=
  rwGen tp cs.length cs

/-- The fallback branch of `convert_variables_in_text`: the four built-in
rewrites applied successively (pattern 1 then 2 then 3 then 4). -/
def convertBuiltinL (cs : List Char) : List Char :=
  applyPat tryPat4 (applyPat tryPat3 (applyPat tryPat2 (applyPat tryPat1 cs)))

def convertBuiltin (s : String) : String := String.mk (convertBuiltinL s.toList)

/-- After `\{`, the optional-`!`-then-`$` part `[!]?\$` of the fallback
detection pattern: returns the remainder on success. -/
def optBangDollar (rest : List Char) : Option (List Char) :=
  match rest with
  | b :: more =>
      if b = '$' then some more
      else if b = '!' then
        match more with
        | c :: r => if c = '$' then some r else none
        | [] => none
      else none
  | [] => none

/-- Does the first alternative `\{[!]?\$[!]?[^}]+\}` of `DOLLAR_VAR_PATTERN`
match at the head of the list?  (The second optional `!` needs no separate
case: since `!` is itself a `[^}]` character, the alternative matches exactly
when a nonempty capture reaches a closing brace.) -/
def alt1At (cs : List Char) : Bool :=
  match cs with
  | a :: rest =>
      if a = '{' then
        match optBangDollar rest with
        | some r2 =>
            match splitBrace r2 with
            | some (cap, _) => decide (cap ≠ [])
            | none => false
        | none => false
      else false
  | [] => false

/-- Does the second alternative `\{![^@}][^}]*\}` of `DOLLAR_VAR_PATTERN`
match at the head of the list? -/
def alt2At (cs : List Char) : Bool :=
  match cs with
  | a :: b :: c :: rest =>
      if a = '{' ∧ b = '!' ∧ c ≠ '@' ∧ c ≠ '}' then (splitBrace rest).isSome
      else false
  | _ => false

/-- `DOLLAR_VAR_PATTERN.is_match`: some position admits a match of either
alternative. -/
def dollarVarMatchL : List Char → Bool
  | [] => false
  | c :: rest => alt1At (c :: rest) || alt2At (c :: rest) || dollarVarMatchL rest

-- ===========================================================================
-- variable_processor.rs public functions.
-- ===========================================================================

/-- `check_for_dollar_variables` (variable_processor.rs lines 45-67). -/
def check_for_dollar_variables (E : RegexEngine) (input : String)
    (rules : Option ConversionRules) : Bool :=
  match rules with
  | some r =>
      match r.variable_conversion with
      | some vc =>
          if vc.enabled = some false then false
          else
            match vc.patterns with
            | some ps =>
                ps.any (fun p => E.compileOk p.pattern && E.isMatch p.pattern input)
            | none => dollarVarMatchL input.toList
      | none => dollarVarMatchL input.toList
  | none => dollarVarMatchL input.toList

/-- `convert_variables_in_text` (variable_processor.rs lines 70-111). -/
def convert_variables_in_text (E : RegexEngine) (text : Option String)
    (rules : Option ConversionRules) : String :=
  match text with
  | none => ""
  | some t =>
      match rules with
      | some r =>
          match r.variable_conversion with
          | some vc =>
              if vc.enabled = some false then t
              else
                match vc.patterns with
                | some ps =>
                    ps.foldl
                      (fun acc p =>
                        if E.compileOk p.pattern then
                          E.replaceAll p.pattern p.replacement acc
                        else acc)
                      t
                | none => convertBuiltin t
          | none => convertBuiltin t
      | none => convertBuiltin t

/-- Default alert message constant. -/
def DEFAULT_VARIABLE_ALERT_MESSAGE : String :=
  "Variables within instructions will be converted to @variables format"

/-- Default status suffix constant. -/
def DEFAULT_VARIABLE_STATUS_SUFFIX : String :=
  "(variables converted to @variables format)"

/-- `get_variable_alert_message`. -/
def get_variable_alert_message (rules : Option ConversionRules) : String :=
  match rules with
  | some r =>
      match r.variable_conversion with
      | some vc => vc.alert_message.getD DEFAULT_VARIABLE_ALERT_MESSAGE
      | none => DEFAULT_VARIABLE_ALERT_MESSAGE
  | none => DEFAULT_VARIABLE_ALERT_MESSAGE

/-- `get_variable_status_suffix`. -/
def get_variable_status_suffix (rules : Option ConversionRules) : String :=
  match rules with
  | some r =>
      match r.variable_conversion with
      | some vc => vc.status_suffix.getD DEFAULT_VARIABLE_STATUS_SUFFIX
      | none => DEFAULT_VARIABLE_STATUS_SUFFIX
  | none => DEFAULT_VARIABLE_STATUS_SUFFIX

-- Sanity checks mirroring the unit tests of variable_processor.rs.

example : convert_variables_in_text nullEngine (some "\x7b!$MyVar\x7d") none =
    "\x7b!@variables.MyVar\x7d" := by decide

example : convert_variables_in_text nullEngine (some "\x7b$!MyVar\x7d") none =
    "\x7b!@variables.MyVar\x7d" := by decide

example : convert_variables_in_text nullEngine (some "\x7b$MyVar\x7d") none =
    "\x7b!@variables.MyVar\x7d" := by decide

example : convert_variables_in_text nullEngine (some "\x7b!MyVar\x7d") none =
    "\x7b!@variables.MyVar\x7d" := by decide

example : convert_variables_in_text nullEngine
    (some "Hello \x7b!$Name\x7d, welcome!") none =
    "Hello \x7b!@variables.Name\x7d, welcome!" := by decide

example : check_for_dollar_variables nullEngine "\x7b!$MyVar\x7d" none = true := by
  decide

example : check_for_dollar_variables nullEngine "plain text" none = false := by
  decide

example : convert_variables_in_text nullEngine
    (some "Hello \x7b!$Name\x7d, your order is \x7b$OrderId\x7d") none =
    "Hello \x7b!@variables.Name\x7d, your order is \x7b!@variables.OrderId\x7d" := by
  decide

-- ===========================================================================
-- Generic lemmas about the built-in rewriter.
-- ===========================================================================

lemma rwGen_nil (tp : List Char → Option (List Char × List Char))
    (fuel : Nat) : rwGen tp fuel [] = [] := by
  cases fuel <;> rfl

lemma rwGen_eq_self (tp : List Char → Option (List Char × List Char)) :
    ∀ (fuel : Nat) (cs : List Char),
      (∀ c r, c :: r <:+ cs → tp (c :: r) = none) → rwGen tp fuel cs = cs := by
  intro fuel
  induction fuel with
  | zero => intro cs _h; rfl
  | succ n ih =>
      intro cs h
      cases cs with
      | nil => rfl
      | cons c rest =>
          have h0 : tp (c :: rest) = none := h c rest (List.suffix_refl _)
          have hr : ∀ c' r', c' :: r' <:+ rest → tp (c' :: r') = none := by
            intro c' r' hs
            exact h c' r' (hs.trans (List.suffix_cons c rest))
          simp [rwGen, h0, ih rest hr]

lemma applyPat_eq_self (tp : List Char → Option (List Char × List Char))
    (cs : List Char) (h : ∀ c r, c :: r <:+ cs → tp (c :: r) = none) :
    applyPat tp cs = cs :=
  rwGen_eq_self tp cs.length cs h

lemma splitBrace_append (X r : List Char) (h : '}' ∉ X) :
    splitBrace (X ++ '}' :: r) = some (X, r) := by
  induction X with
  | nil => simp [splitBrace]
  | cons a as ih =>
      have ha : a ≠ '}' := fun hc => h (hc ▸ List.mem_cons_self a as)
      have has : '}' ∉ as := fun hc => h (List.mem_cons_of_mem a hc)
      simp [splitBrace, ha, ih has]

lemma tryPat1_none_of_head (c : Char) (rest : List Char) (h : c ≠ '{') :
    tryPat1 (c :: rest) = none := by
  match rest with
  | [] => rfl
  | [_] => rfl
  | b :: d :: r => simp [tryPat1, h]

lemma tryPat2_none_of_head (c : Char) (rest : List Char) (h : c ≠ '{') :
    tryPat2 (c :: rest) = none := by
  match rest with
  | [] => rfl
  | [_] => rfl
  | b :: d :: r => simp [tryPat2, h]

lemma tryPat3_none_of_head (c : Char) (rest : List Char) (h : c ≠ '{') :
    tryPat3 (c :: rest) = none := by
  match rest with
  | [] => rfl
  | [_] => rfl
  | b :: d :: r => simp [tryPat3, h]

lemma tryPat4_none_of_head (c : Char) (rest : List Char) (h : c ≠ '{') :
    tryPat4 (c :: rest) = none := by
  match rest with
  | [] => rfl
  | [_] => rfl
  | b :: d :: r => simp [tryPat4, h]

lemma alt1At_false_of_head (c : Char) (rest : List Char) (h : c ≠ '{') :
    alt1At (c :: rest) = false := by
  simp [alt1At, h]

lemma alt2At_false_of_head (c : Char) (rest : List Char) (h : c ≠ '{') :
    alt2At (c :: rest) = false := by
  match rest with
  | [] => rfl
  | [_] => rfl
  | b :: d :: r => simp [alt2At, h]

lemma dollarVarMatchL_eq_false :
    ∀ cs : List Char,
      (∀ c r, c :: r <:+ cs → alt1At (c :: r) = false ∧ alt2At (c :: r) = false) →
      dollarVarMatchL cs = false := by
  intro cs
  induction cs with
  | nil => intro _; rfl
  | cons c rest ih =>
      intro h
      have h0 := h c rest (List.suffix_refl _)
      have hr : ∀ c' r', c' :: r' <:+ rest →
          alt1At (c' :: r') = false ∧ alt2At (c' :: r') = false := by
        intro c' r' hs
        exact h c' r' (hs.trans (List.suffix_cons c rest))
      simp [dollarVarMatchL, h0.1, h0.2, ih hr]

-- ===========================================================================
-- Claim C4: placeholder rewriting with no rules document.
-- ===========================================================================

/-- C4 counterexample: with no rules, the text "\x7b!\x7b!a\x7d" rewrites to
"\x7b!@variables.\x7b!a\x7d", which still contains a legacy placeholder:
re-rewriting it is not a no-op and the detection predicate returns true on it,
refuting both the idempotence and the post-rewrite-detection parts of the
claim. -/
theorem c4_counterexample :
    convert_variables_in_text nullEngine
        (some (convert_variables_in_text nullEngine (some "\x7b!\x7b!a\x7d") none))
        none
      ≠ convert_variables_in_text nullEngine (some "\x7b!\x7b!a\x7d") none ∧
    check_for_dollar_variables nullEngine
        (convert_variables_in_text nullEngine (some "\x7b!\x7b!a\x7d") none)
        none = true := by
  decide

/-- A nonempty suffix of the canonical rewritten form
`\x7b!@variables.<X>\x7d` (for X alphanumeric) either is the full list or has
a head other than `\x7b`. -/
lemma canonical_suffix_head {X : List Char} (halnum : ∀ c ∈ X, c.isAlphanum = true)
    {c : Char} {r : List Char} (hs : c :: r <:+ varHead ++ X ++ ['}']) :
    c :: r = varHead ++ X ++ ['}'] ∨ c ≠ '{' := by
  have hshape : varHead ++ X ++ ['}'] =
      '{' :: ("!@variables.".toList ++ (X ++ ['}'])) := by
    simp [varHead]
  rw [hshape] at hs
  rcases List.suffix_cons_iff.mp hs with h | h
  · left
    rw [hshape]
    exact h
  · right
    intro hc
    subst hc
    have hmem : '{' ∈ "!@variables.".toList ++ (X ++ ['}']) :=
      h.subset (List.mem_cons_self _ _)
    rcases List.mem_append.mp hmem with h1 | h2
    · exact absurd h1 (by decide)
    · rcases List.mem_append.mp h2 with h3 | h4
      · exact absurd (halnum '{' h3) (by decide)
      · exact absurd h4 (by decide)

lemma tryPat1_none_at_canonical (X : List Char) :
    tryPat1 (varHead ++ X ++ ['}']) = none := by
  have hshape : varHead ++ X ++ ['}'] =
      '{' :: '!' :: '@' :: ("variables.".toList ++ (X ++ ['}'])) := by
    simp [varHead]
  rw [hshape]
  simp [tryPat1]

lemma tryPat2_none_at_canonical (X : List Char) :
    tryPat2 (varHead ++ X ++ ['}']) = none := by
  have hshape : varHead ++ X ++ ['}'] =
      '{' :: '!' :: '@' :: ("variables.".toList ++ (X ++ ['}'])) := by
    simp [varHead]
  rw [hshape]
  simp [tryPat2]

lemma tryPat3_none_at_canonical (X : List Char) :
    tryPat3 (varHead ++ X ++ ['}']) = none := by
  have hshape : varHead ++ X ++ ['}'] =
      '{' :: '!' :: '@' :: ("variables.".toList ++ (X ++ ['}'])) := by
    simp [varHead]
  rw [hshape]
  simp [tryPat3]

lemma tryPat4_none_at_canonical (X : List Char) :
    tryPat4 (varHead ++ X ++ ['}']) = none := by
  have hshape : varHead ++ X ++ ['}'] =
      '{' :: '!' :: '@' :: ("variables.".toList ++ (X ++ ['}'])) := by
    simp [varHead]
  rw [hshape]
  simp [tryPat4]

lemma alt1At_false_at_canonical (X : List Char) :
    alt1At (varHead ++ X ++ ['}']) = false := by
  have hshape : varHead ++ X ++ ['}'] =
      '{' :: '!' :: '@' :: ("variables.".toList ++ (X ++ ['}'])) := by
    simp [varHead]
  rw [hshape]
  simp [alt1At, optBangDollar]

lemma alt2At_false_at_canonical (X : List Char) :
    alt2At (varHead ++ X ++ ['}']) = false := by
  have hshape : varHead ++ X ++ ['}'] =
      '{' :: '!' :: '@' :: ("variables.".toList ++ (X ++ ['}'])) := by
    simp [varHead]
  rw [hshape]
  simp [alt2At]

lemma applyPat_canonical_self
    (tp : List Char → Option (List Char × List Char))
    (hcanon : ∀ X : List Char, tp (varHead ++ X ++ ['}']) = none)
    (hhead : ∀ c rest, c ≠ '{' → tp (c :: rest) = none)
    (X : List Char) (halnum : ∀ c ∈ X, c.isAlphanum = true) :
    applyPat tp (varHead ++ X ++ ['}']) = varHead ++ X ++ ['}'] := by
  apply applyPat_eq_self
  intro c r hs
  rcases canonical_suffix_head halnum hs with heq | hne
  · rw [heq]; exact hcanon X
  · exact hhead c r hne

lemma convertBuiltinL_at_canonical (X : List Char)
    (halnum : ∀ c ∈ X, c.isAlphanum = true) :
    convertBuiltinL (varHead ++ X ++ ['}']) = varHead ++ X ++ ['}'] := by
  unfold convertBuiltinL
  rw [applyPat_canonical_self tryPat1 tryPat1_none_at_canonical
        tryPat1_none_of_head X halnum,
      applyPat_canonical_self tryPat2 tryPat2_none_at_canonical
        tryPat2_none_of_head X halnum,
      applyPat_canonical_self tryPat3 tryPat3_none_at_canonical
        tryPat3_none_of_head X halnum,
      applyPat_canonical_self tryPat4 tryPat4_none_at_canonical
        tryPat4_none_of_head X halnum]

lemma tryPat1_at_legacy (X : List Char) (hne : X ≠ [])
    (hnb : '}' ∉ X) :
    tryPat1 ('{' :: '!' :: '$' :: (X ++ ['}'])) = some (X, []) := by
  have : (X ++ ['}'] : List Char) = X ++ '}' :: [] := rfl
  simp [tryPat1, this, splitBrace_append X [] hnb, hne]

lemma convertBuiltinL_at_legacy (X : List Char) (hne : X ≠ [])
    (halnum : ∀ c ∈ X, c.isAlphanum = true) :
    convertBuiltinL ('{' :: '!' :: '$' :: (X ++ ['}'])) = varHead ++ X ++ ['}'] := by
  have hnb : '}' ∉ X := fun h => absurd (halnum '}' h) (by decide)
  have hlen : ('{' :: '!' :: '$' :: (X ++ ['}'])).length = (X.length + 3) + 1 := by
    simp
  have hstage1 : applyPat tryPat1 ('{' :: '!' :: '$' :: (X ++ ['}']))
      = varHead ++ X ++ ['}'] := by
    unfold applyPat
    rw [hlen]
    rw [rwGen]
    rw [tryPat1_at_legacy X hne hnb]
    simp [rwGen_nil]
  unfold convertBuiltinL
  rw [hstage1,
      applyPat_canonical_self tryPat2 tryPat2_none_at_canonical
        tryPat2_none_of_head X halnum,
      applyPat_canonical_self tryPat3 tryPat3_none_at_canonical
        tryPat3_none_of_head X halnum,
      applyPat_canonical_self tryPat4 tryPat4_none_at_canonical
        tryPat4_none_of_head X halnum]

lemma dollarVarMatchL_at_canonical (X : List Char)
    (halnum : ∀ c ∈ X, c.isAlphanum = true) :
    dollarVarMatchL (varHead ++ X ++ ['}']) = false := by
  apply dollarVarMatchL_eq_false
  intro c r hs
  rcases canonical_suffix_head halnum hs with heq | hne
  · rw [heq]
    exact ⟨alt1At_false_at_canonical X, alt2At_false_at_canonical X⟩
  · exact ⟨alt1At_false_of_head c r hne, alt2At_false_of_head c r hne⟩

/-- C4 (amended): with no rules document, for every nonempty alphanumeric
name X the rewriter maps `\x7b!$X\x7d` to the canonical `\x7b!@variables.X\x7d`;
re-rewriting that canonical result is a no-op and the legacy-placeholder
detection predicate returns false on it.  (The original "for any
already-rewritten result" quantification fails: see the counterexample.) -/
theorem c4_amended_theorem (E : RegexEngine) (X : List Char) (hne : X ≠ [])
    (halnum : ∀ c ∈ X, c.isAlphanum = true) :
    convert_variables_in_text E (some (String.mk ('{' :: '!' :: '$' :: (X ++ ['}'])))) none
      = String.mk (varHead ++ X ++ ['}']) ∧
    convert_variables_in_text E (some (String.mk (varHead ++ X ++ ['}']))) none
      = String.mk (varHead ++ X ++ ['}']) ∧
    check_for_dollar_variables E (String.mk (varHead ++ X ++ ['}'])) none = false := by
  refine ⟨?_, ?_, ?_⟩
  · show convertBuiltin _ = _
    unfold convertBuiltin
    rw [show (String.mk ('{' :: '!' :: '$' :: (X ++ ['}']))).toList
          = '{' :: '!' :: '$' :: (X ++ ['}']) from rfl]
    rw [convertBuiltinL_at_legacy X hne halnum]
  · show convertBuiltin _ = _
    unfold convertBuiltin
    rw [show (String.mk (varHead ++ X ++ ['}'])).toList
          = varHead ++ X ++ ['}'] from rfl]
    rw [convertBuiltinL_at_canonical X halnum]
  · show dollarVarMatchL _ = false
    rw [show (String.mk (varHead ++ X ++ ['}'])).toList
          = varHead ++ X ++ ['}'] from rfl]
    exact dollarVarMatchL_at_canonical X halnum

/-- C4 witness: the amended theorem applied at the concrete name "X". -/
theorem c4_amended_witness :
    convert_variables_in_text nullEngine (some "\x7b!$X\x7d") none
      = "\x7b!@variables.X\x7d" ∧
    convert_variables_in_text nullEngine (some "\x7b!@variables.X\x7d") none
      = "\x7b!@variables.X\x7d" ∧
    check_for_dollar_variables nullEngine "\x7b!@variables.X\x7d" none = false := by
  have h := c4_amended_theorem nullEngine ['X'] (by decide) (by decide)
  exact h

-- ===========================================================================
-- Claim C5: rules-controlled detection and rewriting.
-- ===========================================================================

/-- Written after the spec's words for C5: detection that consults exactly the
override-supplied pattern/replacement pairs (a pattern that fails to compile
is skipped; no built-in pattern is consulted). -/
def specCustomOnlyCheck (E : RegexEngine) (ps : List VariablePattern)
    (input : String) : Bool :=
  ps.any (fun p => E.compileOk p.pattern && E.isMatch p.pattern input)

/-- Written after the spec's words for C5: rewriting that applies exactly the
override-supplied pattern/replacement pairs in order (a pattern that fails to
compile is skipped; no built-in pattern is consulted). -/
def specCustomOnlyRewrite (E : RegexEngine) (ps : List VariablePattern)
    (t : String) : String :=
  ps.foldl
    (fun acc p =>
      if E.compileOk p.pattern then E.replaceAll p.pattern p.replacement acc
      else acc)
    t

/-- C5: if the rules document's variable-conversion enabled flag is explicitly
false, detection returns false and the rewriter returns the text unchanged;
and if the rules document supplies custom pattern/replacement pairs (without
disabling conversion), both detection and rewriting use exactly those
patterns. -/
theorem c5_rules_control :
    (∀ (E : RegexEngine) (input t : String) (r : ConversionRules)
        (vc : VariableConversionRules),
        r.variable_conversion = some vc → vc.enabled = some false →
        check_for_dollar_variables E input (some r) = false ∧
        convert_variables_in_text E (some t) (some r) = t) ∧
    (∀ (E : RegexEngine) (input t : String) (r : ConversionRules)
        (vc : VariableConversionRules) (ps : List VariablePattern),
        r.variable_conversion = some vc → vc.enabled ≠ some false →
        vc.patterns = some ps →
        check_for_dollar_variables E input (some r) = specCustomOnlyCheck E ps input ∧
        convert_variables_in_text E (some t) (some r) = specCustomOnlyRewrite E ps t) := by
  constructor
  · intro E input t r vc hvc hen
    constructor
    · simp [check_for_dollar_variables, hvc, hen]
    · simp [convert_variables_in_text, hvc, hen]
  · intro E input t r vc ps hvc hen hps
    constructor
    · simp [check_for_dollar_variables, hvc, hen, hps, specCustomOnlyCheck]
    · simp [convert_variables_in_text, hvc, hen, hps, specCustomOnlyRewrite]

/-- Concrete rules value: variable conversion explicitly disabled. -/
def rulesDisabled : ConversionRules :=
  { emptyRules with
    variable_conversion := some ⟨some false, none, none, none⟩ }

/-- Concrete rules value: one custom pattern supplied, conversion not
disabled. -/
def rulesCustom : ConversionRules :=
  { emptyRules with
    variable_conversion :=
      some ⟨none, some [⟨"pat", "rep", none⟩], none, none⟩ }

/-- C5 witness: the theorem applied at concrete rules values and the text
"\x7b!$a\x7d". -/
theorem c5_rules_control_witness :
    (check_for_dollar_variables nullEngine "\x7b!$a\x7d" (some rulesDisabled) = false ∧
     convert_variables_in_text nullEngine (some "\x7b!$a\x7d") (some rulesDisabled)
       = "\x7b!$a\x7d") ∧
    (check_for_dollar_variables nullEngine "\x7b!$a\x7d" (some rulesCustom)
       = specCustomOnlyCheck nullEngine [⟨"pat", "rep", none⟩] "\x7b!$a\x7d" ∧
     convert_variables_in_text nullEngine (some "\x7b!$a\x7d") (some rulesCustom)
       = specCustomOnlyRewrite nullEngine [⟨"pat", "rep", none⟩] "\x7b!$a\x7d") := by
  constructor
  · exact c5_rules_control.1 nullEngine "\x7b!$a\x7d" "\x7b!$a\x7d"
      rulesDisabled ⟨some false, none, none, none⟩ rfl rfl
  · exact c5_rules_control.2 nullEngine "\x7b!$a\x7d" "\x7b!$a\x7d"
      rulesCustom ⟨none, some [⟨"pat", "rep", none⟩], none, none⟩
      [⟨"pat", "rep", none⟩] rfl (by decide) rfl

-- ===========================================================================
-- Association-list model of `HashMap<String, V>`.
-- ===========================================================================

/-- `HashMap::get`. -/
def alLookup {α : Type} (k : String) : List (String × α) → Option α
  | [] => none
  | (k', v) :: rest => if k' = k then some v else alLookup k rest

/-- `HashMap::contains_key`. -/
def alContains {α : Type} (k : String) (m : List (String × α)) : Bool :=
  (alLookup k m).isSome

/-- `HashMap::insert` (replaces the value under an existing key; entry order
is a modelling artefact of the unordered map). -/
def alInsert {α : Type} (k : String) (v : α) (m : List (String × α)) :
    List (String × α) :=
  if alContains k m then m.map (fun e => if e.1 = k then (k, v) else e)
  else m ++ [(k, v)]

/-- Keys of an association list. -/
def alKeys {α : Type} (m : List (String × α)) : List String := m.map Prod.fst

-- ===========================================================================
-- helpers.rs: text utilities.
-- ===========================================================================

/-- Model of Rust `char::is_alphanumeric`.  The Rust function is
Unicode-aware; this model covers the ASCII range, which is the only range the
verified properties depend on. -/
def rustIsAlphanumeric (c : Char) : Bool := c.isAlphanum

/-- Model of Rust `char`/`str` lowercasing: ASCII letters are lowered, plus
the one non-ASCII character (Kelvin sign) whose lowercase form is ASCII.
Other Unicode case mappings are not modelled; the code only compares
lowercased text against ASCII keyword sets. -/
def charLowerRust (c : Char) : Char :=
  if 'A' ≤ c ∧ c ≤ 'Z' then Char.ofNat (c.toNat + 32)
  else if c = 'K' then 'k'
  else c

def toLowercaseRust (s : String) : String := String.mk (s.toList.map charLowerRust)

/-- Model of Rust uppercasing, ASCII range (see `charLowerRust`). -/
def charUpperRust (c : Char) : Char :=
  if 'a' ≤ c ∧ c ≤ 'z' then Char.ofNat (c.toNat - 32) else c

def toUppercaseRust (s : String) : String := String.mk (s.toList.map charUpperRust)

/-- Split a character list at every character satisfying `p`, keeping empty
segments (kernel-reducible replacement for the string splitting functions). -/
def splitOnPred (p : Char → Bool) : List Char → List (List Char)
  | [] => [[]]
  | x :: rest =>
      let r := splitOnPred p rest
      if p x then [] :: r
      else
        match r with
        | h :: t => (x :: h) :: t
        | [] => [[x]]

/-- Split at a separator character (Rust `str::split(c)`). -/
def splitOnChar (c : Char) : List Char → List (List Char) :=
  splitOnPred (· = c)

/-- Join segments with a separator (Rust `[&str]::join`). -/
def joinSep (sep : List Char) : List (List Char) → List Char
  | [] => []
  | [p] => p
  | p :: rest => p ++ sep ++ joinSep sep rest

/-- Join strings with a separator string. -/
def joinStrSep (sep : String) (xs : List String) : String :=
  String.mk (joinSep sep.toList (xs.map String.toList))

/-- Rust `str::split_whitespace` as a list of nonempty words. -/
def splitWhitespaceL (l : List Char) : List (List Char) :=
  (splitOnPred Char.isWhitespace l).filter (· ≠ [])

/-- Strip leading characters equal to `c` (Rust `trim_start_matches`). -/
def trimStartMatches (c : Char) (l : List Char) : List Char := l.dropWhile (· = c)

/-- Strip trailing characters equal to `c` (Rust `trim_end_matches`). -/
def trimEndMatches (c : Char) (l : List Char) : List Char :=
  ((l.reverse.dropWhile (· = c))).reverse

/-- Rust `str::trim` (whitespace on both ends). -/
def trimRust (s : String) : String :=
  String.mk (((s.toList.dropWhile Char.isWhitespace).reverse.dropWhile
    Char.isWhitespace).reverse)

/-- `sanitize_topic_name` (helpers.rs lines 39-54). -/
def sanitize_topic_name (name : Option String) : String :=
  let n := name.getD "unnamed"
  let cleaned := n.toList.map (fun c => if rustIsAlphanumeric c || c = '_' then c else '_')
  let joined := joinSep ['_'] ((splitOnChar '_' cleaned).filter (· ≠ []))
  toLowercaseRust (String.mk (trimEndMatches '_' (trimStartMatches '_' joined)))

/-- `sanitize_action_name` (helpers.rs lines 57-72). -/
def sanitize_action_name (name : Option String) : String :=
  let n := name.getD "action"
  let cleaned := n.toList.map (fun c => if rustIsAlphanumeric c || c = '_' then c else '_')
  let joined := joinSep ['_'] ((splitOnChar '_' cleaned).filter (· ≠ []))
  String.mk (trimEndMatches '_' (trimStartMatches '_' joined))

/-- `generate_developer_name` (helpers.rs lines 75-86). -/
def generate_developer_name (name : String) : String :=
  let filtered := (name.toList.filter
    (fun c => rustIsAlphanumeric c || c.isWhitespace || c = '_'))
  let joined := joinSep ['_'] (splitWhitespaceL filtered)
  String.mk ((joined.map charUpperRust).take 80)

/-- `format_label` (helpers.rs lines 89-103): snake_case to Title Case. -/
def format_label (name : String) : String :=
  let replaced := name.toList.map (fun c => if c = '_' then ' ' else c)
  let words := splitWhitespaceL replaced
  let capped := words.map (fun w =>
    match w with
    | [] => ([] : List Char)
    | first :: rest => charUpperRust first :: rest)
  trimRust (String.mk (joinSep [' '] capped))

/-- Match of the tag regex `#[A-Za-z]+#` just after an opening `#`: a
nonempty maximal ASCII-letter run followed by `#`; returns the remainder
after the closing `#`. -/
def tagSplit (cs : List Char) : Option (List Char) :=
  let run := cs.takeWhile Char.isAlpha
  let rest := cs.dropWhile Char.isAlpha
  if run = [] then none
  else
    match rest with
    | '#' :: r => some r
    | _ => none

/-- `MARKDOWN_TAG_RE.replace_all(desc, "")`: remove `#Word#` tags, scanning
left to right (fuelled by the input length). -/
def stripTagsFuel : Nat → List Char → List Char
  | 0, cs => cs
  | _ + 1, [] => []
  | fuel + 1, c :: rest =>
      if c = '#' then
        match tagSplit rest with
        | some rest' => stripTagsFuel fuel rest'
        | none => c :: stripTagsFuel fuel rest
      else c :: stripTagsFuel fuel rest

/-- `clean_description` (helpers.rs lines 106-122). -/
def clean_description (desc : Option String) : String :=
  match desc with
  | none => ""
  | some d =>
      let cleaned := stripTagsFuel d.toList.length d.toList
      trimRust (String.mk (joinSep [' '] (splitWhitespaceL cleaned)))

/-- `format_locales`. -/
def format_locales (locales : Option (List String)) : String :=
  match locales with
  | some locs => joinStrSep ", " locs
  | none => ""

/-- Replace every occurrence of the single character `c` by the string `s`
(one step of `escape_yaml_string`). -/
def replaceCharL (c : Char) (s : List Char) (l : List Char) : List Char :=
  l.flatMap (fun ch => if ch = c then s else [ch])

/-- `escape_yaml_string` (helpers.rs lines 133-139): five successive
replacements. -/
def escape_yaml_string (s : String) : String :=
  String.mk
    (replaceCharL '\t' ['\\', 't']
      (replaceCharL '\r' ['\\', 'r']
        (replaceCharL '\n' ['\\', 'n']
          (replaceCharL '"' ['\\', '"']
            (replaceCharL '\\' ['\\', '\\'] s.toList)))))

def DEFAULT_SYSTEM_INSTRUCTIONS : String := "You are an AI Agent."

def DEFAULT_WELCOME_MESSAGE : String := "Hi, I'm an AI assistant. How can I help you?"

def DEFAULT_ERROR_MESSAGE : String := "Sorry, it looks like something has gone wrong."

def DEFAULT_LOCALE : String := "en_US"

def DEFAULT_ALL_ADDITIONAL_LOCALES : Bool := false

def YAML_TRUE : String := "True"

def YAML_FALSE : String := "False"

/-- `get_default_system_values`. -/
def get_default_system_values : String × String × String :=
  (DEFAULT_SYSTEM_INSTRUCTIONS, DEFAULT_WELCOME_MESSAGE, DEFAULT_ERROR_MESSAGE)

/-- `get_default_language_values`. -/
def get_default_language_values : String × Bool :=
  (DEFAULT_LOCALE, DEFAULT_ALL_ADDITIONAL_LOCALES)

/-- `format_boolean_value`. -/
def format_boolean_value (value : Bool) : String :=
  if value then YAML_TRUE else YAML_FALSE

/-- `merge_description_and_scope` (helpers.rs lines 161-181). -/
def merge_description_and_scope (description scope : Option String)
    (fallback_name : String) : String :=
  let parts :=
    (match description with
     | some d => [clean_description (some d)]
     | none => []) ++
    (match scope with
     | some s => [clean_description (some s)]
     | none => [])
  if parts = [] then "Handles " ++ fallback_name ++ " requests"
  else joinStrSep " " parts

-- Sanity checks mirroring the unit tests of helpers.rs.

example : sanitize_topic_name (some "My Topic") = "my_topic" := by decide
example : sanitize_topic_name (some "My.Topic.Name") = "my_topic_name" := by decide
example : sanitize_topic_name (some "Topic@123") = "topic_123" := by decide
example : sanitize_topic_name none = "unnamed" := by decide
example : sanitize_topic_name (some "___") = "" := by decide
example : sanitize_action_name (some "GetData") = "GetData" := by decide
example : generate_developer_name "My Agent" = "MY_AGENT" := by decide
example : generate_developer_name "My@Agent#1" = "MYAGENT1" := by decide
example : format_label "my_topic" = "My Topic" := by decide
example : clean_description (some "Hello #Tag# World") = "Hello World" := by decide
example : clean_description (some "#Start# text #End#") = "text" := by decide
example : escape_yaml_string "say \"hi\"" = "say \\\"hi\\\"" := by decide
example : merge_description_and_scope (some "Desc") (some "Scope") "f" = "Desc Scope" := by
  decide
example : merge_description_and_scope none none "test" = "Handles test requests" := by
  decide

-- ===========================================================================
-- models.rs input model.  `Property` is recursive through `items`
-- (`Option<Box<Property>>`).  The converter reads the field
-- `complex_data_type_name` from properties (populated in the source from the
-- serde-renamed "lightning:type" input field).
-- ===========================================================================

namespace NGA

inductive Property where
  | mk (prop_type : Option String) (title : Option String)
       (description : Option String) (items : Option Property)
       (const_value : Option Json) (is_user_input : Option Bool)
       (is_displayable : Option Bool) (is_used_by_planner : Option Bool)
       (complex_data_type_name : Option String) (default_value : Option Json)

def Property.prop_type : Property → Option String
  | .mk t _ _ _ _ _ _ _ _ _ => t

def Property.title : Property → Option String
  | .mk _ t _ _ _ _ _ _ _ _ => t

def Property.description : Property → Option String
  | .mk _ _ d _ _ _ _ _ _ _ => d

def Property.items : Property → Option Property
  | .mk _ _ _ i _ _ _ _ _ _ => i

def Property.const_value : Property → Option Json
  | .mk _ _ _ _ c _ _ _ _ _ => c

def Property.is_user_input : Property → Option Bool
  | .mk _ _ _ _ _ u _ _ _ _ => u

def Property.is_displayable : Property → Option Bool
  | .mk _ _ _ _ _ _ d _ _ _ => d

def Property.is_used_by_planner : Property → Option Bool
  | .mk _ _ _ _ _ _ _ p _ _ => p

def Property.complex_data_type_name : Property → Option String
  | .mk _ _ _ _ _ _ _ _ c _ => c

def Property.default_value : Property → Option Json
  | .mk _ _ _ _ _ _ _ _ _ d => d

/-- A property carrying only a declared type. -/
def typedProp (ty : Option String) : Property :=
  .mk ty none none none none none none none none none

/-- A property declared as an array of the given item property. -/
def arrayProp (items : Property) : Property :=
  .mk (some "array") none none (some items) none none none none none none

structure InputOutputType where
  properties : Option (List (String × Property))
  required : Option (List String)

structure Function where
  name : String
  local_dev_name : Option String
  label : Option String
  description : Option String
  invocation_target_type : Option String
  invocation_target_name : Option String
  invocation_target_id : Option String
  input_type : Option InputOutputType
  output_type : Option InputOutputType
  require_user_confirmation : Option Bool
  include_in_progress_indicator : Option Bool
  progress_indicator_message : Option String
  source : Option String

structure InstructionDefinition where
  name : Option String
  description : Option String

structure Plugin where
  name : String
  local_dev_name : Option String
  label : Option String
  description : Option String
  scope : Option String
  plugin_type : Option String
  instruction_definitions : Option (List InstructionDefinition)
  functions : Option (List Function)
  can_escalate : Option Bool

structure ActionProperty where
  prop_type : Option String
  description : Option String
  label : Option String
  required : Option Bool
  default : Option Json
  is_user_input : Option Bool
  is_displayable : Option Bool
  is_used_by_planner : Option Bool
  complex_type : Option String
  complex_data_type_name : Option String

structure ActionInput where
  name : Option String
  id : Option String
  label : Option String
  description : Option String
  target : Option String
  invocation_target : Option String
  target_name : Option String
  action_type : Option String
  inputs : Option (List (String × ActionProperty))
  outputs : Option (List (String × ActionProperty))
  require_user_confirmation : Option Bool
  include_in_progress_indicator : Option Bool
  progress_indicator_message : Option String
  source : Option String

structure TopicInput where
  name : Option String
  id : Option String
  label : Option String
  description : Option String
  scope : Option String
  instructions : Option String
  reasoning : Option String
  actions : Option (List ActionInput)
  is_start : Option Bool

structure VariableInput where
  name : Option String
  id : Option String
  label : Option String
  var_type : Option String
  source : Option String
  description : Option String

structure AgentforceInput where
  id : Option String
  name : Option String
  label : Option String
  description : Option String
  planner_role : Option String
  planner_company : Option String
  planner_tone_type : Option String
  locale : Option String
  secondary_locales : Option (List String)
  welcome_message : Option String
  welcome_message_alt : Option String
  user_location : Option String
  voice_config : Option Json
  plugins : Option (List Plugin)
  topics : Option (List TopicInput)
  variables_ : Option (List VariableInput)

/-- An input document with every field absent. -/
def emptyInput : AgentforceInput :=
  ⟨none, none, none, none, none, none, none, none, none, none, none, none,
   none, none, none, none⟩

-- ===========================================================================
-- models.rs output model (NGA format).  The `knowledge` field declared in
-- models.rs is never constructed nor serialized by the converter and is
-- omitted.
-- ===========================================================================

structure MessagesSection where
  welcome : String
  error : String
deriving Repr, DecidableEq

structure SystemSection where
  instructions : String
  messages : MessagesSection
deriving Repr, DecidableEq

structure ConfigSection where
  default_agent_user : String
  agent_label : String
  developer_name : String
  description : String
deriving Repr, DecidableEq

structure Variable where
  var_type : String
  label : Option String
  source : Option String
  description : String
deriving Repr, DecidableEq

structure LanguageSection where
  default_locale : String
  additional_locales : String
  all_additional_locales : Bool
deriving Repr, DecidableEq

structure ConnectionSection where
  adaptive_response_allowed : Bool
deriving Repr, DecidableEq

structure ReasoningAction where
  target : String
  description : Option String
  with_params : Option (List String)
deriving Repr, DecidableEq

structure ReasoningSection where
  instructions : String
  actions : Option (List (String × ReasoningAction))
deriving Repr, DecidableEq

structure ActionInputDef where
  input_type : String
  const_value : Option Json
  description : Option String
  label : Option String
  is_required : Bool
  is_user_input : Bool
  complex_data_type_name : Option String
deriving Repr

structure ActionOutputDef where
  output_type : String
  description : Option String
  label : Option String
  is_displayable : Bool
  is_used_by_planner : Bool
  complex_data_type_name : Option String
deriving Repr

structure Action where
  description : String
  label : Option String
  require_user_confirmation : Bool
  include_in_progress_indicator : Bool
  progress_indicator_message : Option String
  source : Option String
  target : String
  inputs : Option (List (String × ActionInputDef))
  outputs : Option (List (String × ActionOutputDef))
deriving Repr

structure Topic where
  label : String
  description : String
  reasoning : ReasoningSection
  actions : Option (List (String × Action))
deriving Repr

structure NGAOutput where
  system : SystemSection
  config : ConfigSection
  variables_ : List (String × Variable)
  language : LanguageSection
  topics : List (String × Topic)
  connections : List (String × ConnectionSection)
deriving Repr

-- ===========================================================================
-- converter.rs: map_property_type (lines 294-365).
-- ===========================================================================

def defaultPrimitiveMap : List (String × String) :=
  [("string", "string"), ("number", "number"), ("integer", "number"),
   ("boolean", "boolean")]

def defaultComplexMap : List (String × String) :=
  [("object", "object"), ("array", "list[\x7bitemType\x7d]")]

/-- Rust `String::replace(pat, repl)`: all non-overlapping occurrences,
left to right (fuelled by the input length; the only pattern used is the
nonempty literal in the list-format template). -/
def replaceSubFuel (pat repl : List Char) : Nat → List Char → List Char
  | 0, cs => cs
  | _ + 1, [] => []
  | fuel + 1, c :: rest =>
      if pat ≠ [] ∧ pat.isPrefixOf (c :: rest) then
        repl ++ replaceSubFuel pat repl fuel ((c :: rest).drop pat.length)
      else c :: replaceSubFuel pat repl fuel rest

def stringReplace (s pat repl : String) : String :=
  String.mk (replaceSubFuel pat.toList repl.toList s.toList.length s.toList)

/-- `map_property_type` (converter.rs lines 294-365). -/
def map_property_type (rules : Option ConversionRules) :
    Option String → Property → String
  | jt, .mk _pt _ti _de itemsOpt _cv _iui _idis _iup _cdt _dv =>
      let json_type := jt.getD "object"
      let primitive_map :=
        ((rules.bind (·.type_mappings)).bind (·.primitive)).getD defaultPrimitiveMap
      let complex_map :=
        ((rules.bind (·.type_mappings)).bind (·.complex)).getD defaultComplexMap
      let default_type :=
        ((rules.bind (·.type_mappings)).bind (·.default_type)).getD "object"
      if json_type = "array" then
        match itemsOpt with
        | some items =>
            let item_type := items.prop_type.getD "object"
            let mapped_item_type := map_property_type rules (some item_type) items
            let list_format :=
              (alLookup "array" complex_map).getD "list[\x7bitemType\x7d]"
            stringReplace list_format "\x7bitemType\x7d" mapped_item_type
        | none => "list[object]"
      else
        match alLookup json_type primitive_map with
        | some v => v
        | none => (alLookup json_type complex_map).getD default_type

example :
    map_property_type none (some "array")
      (arrayProp (arrayProp (typedProp (some "string")))) = "list[list[string]]" := by
  decide

example : map_property_type none (some "integer") (typedProp (some "integer"))
    = "number" := by decide

example : map_property_type none (some "banana") (typedProp (some "banana"))
    = "object" := by decide

end NGA

namespace NGA

-- ===========================================================================
-- Claim C6: type mapping.
-- ===========================================================================

/-- Nested list type names: `listNest n` = list[...list[string]...] with n
levels of nesting. -/
def listNest : Nat → String
  | 0 => "string"
  | n + 1 => "list[" ++ listNest n ++ "]"

/-- Arbitrarily nested array property: n levels of array around a string
property. -/
def nestedArrayProp : Nat → Property
  | 0 => typedProp (some "string")
  | n + 1 => arrayProp (nestedArrayProp n)

lemma replace_itemType (X : String) :
    stringReplace "list[\x7bitemType\x7d]" "\x7bitemType\x7d" X
      = "list[" ++ X ++ "]" := rfl

lemma nestedArrayProp_type (n : Nat) :
    (nestedArrayProp n).prop_type
      = some ((nestedArrayProp n).prop_type.getD "object") := by
  cases n <;> rfl

/-- Evaluation of `map_property_type` with default rules on a non-array type
name found in the default primitive map (for any property). -/
lemma map_primitive_eval (u : String) (q : Property) (hne : ¬ (u = "array"))
    (hlook : alLookup u defaultPrimitiveMap = some u) :
    map_property_type none (some u) q = u := by
  rcases q with ⟨pt, ti, de, it, cv, ia, ib, ic, idn, ie⟩
  rw [map_property_type.eq_def]
  simp only [Option.none_bind, Option.getD_none, Option.getD_some, hne,
    if_false, hlook]

lemma map_nestedArrayProp (n : Nat) :
    map_property_type none
        (some ((nestedArrayProp n).prop_type.getD "object"))
        (nestedArrayProp n)
      = listNest n := by
  induction n with
  | zero => decide
  | succ m ih =>
      show map_property_type none (some "array") (arrayProp (nestedArrayProp m))
        = listNest (m + 1)
      rw [show arrayProp (nestedArrayProp m)
            = Property.mk (some "array") none none (some (nestedArrayProp m))
                none none none none none none from rfl]
      rw [map_property_type]
      simp only [Option.none_bind, Option.getD_none, Option.getD_some,
        if_pos rfl]
      rw [ih]
      rw [show (alLookup "array" defaultComplexMap).getD "list[\x7bitemType\x7d]"
            = "list[\x7bitemType\x7d]" from rfl]
      rw [replace_itemType]
      rfl

/-- C6: with default rules, (1) type mapping is idempotent on already-mapped
primitive type names; (2) it recursively maps arbitrarily nested array
properties, terminating with the n-fold `list[...]` nesting; and (3) the
concrete array-of-array-of-string property maps to "list[list[string]]". -/
theorem c6_type_mapping :
    (∀ (t u : String) (q : Property),
        alLookup t defaultPrimitiveMap = some u →
        map_property_type none (some u) q = u) ∧
    (∀ n : Nat,
        map_property_type none (nestedArrayProp n).prop_type (nestedArrayProp n)
          = listNest n) ∧
    map_property_type none (some "array")
        (arrayProp (arrayProp (typedProp (some "string")))) = "list[list[string]]" := by
  refine ⟨?_, ?_, by decide⟩
  · intro t u q h
    simp only [alLookup, defaultPrimitiveMap] at h
    split_ifs at h with h1 h2 h3 h4 <;>
      simp only [Option.some.injEq] at h
    · subst h; exact map_primitive_eval "string" q (by decide) rfl
    · subst h; exact map_primitive_eval "number" q (by decide) rfl
    · subst h; exact map_primitive_eval "number" q (by decide) rfl
    · subst h; exact map_primitive_eval "boolean" q (by decide) rfl
  · intro n
    rw [nestedArrayProp_type n]
    exact map_nestedArrayProp n

/-- C6 witness: part (1) of the theorem applied at the primitive pair
(integer, number). -/
theorem c6_type_mapping_witness :
    map_property_type none (some "number") (typedProp (some "integer")) = "number" :=
  c6_type_mapping.1 "integer" "number" (typedProp (some "integer")) (by decide)

end NGA

namespace NGA

-- ===========================================================================
-- report_generator.rs: the manual-review heuristic (claim C7).
-- ===========================================================================

structure ActionReport where
  name : String
  label : String
  description : String
  target : String
  action_type : String
deriving Repr, DecidableEq

structure TopicReport where
  name : String
  label : String
  description : String
  is_start : Bool
  actions : List ActionReport
deriving Repr, DecidableEq

structure CustomActionReview where
  topic_name : String
  action_name : String
  action_type : String
  target_name : String
deriving Repr, DecidableEq

/-- `chars().next().is_some_and(|c| c.is_ascii_digit())`. -/
def headIsDigit : List Char → Bool
  | c :: _ => c.isDigit
  | [] => false

/-- `windows(3).any(|w| w.iter().all(is_ascii_digit))`: some window of three
consecutive characters is all digits. -/
def hasDigitRun3 : List Char → Bool
  | a :: b :: c :: rest =>
      (a.isDigit && b.isDigit && c.isDigit) || hasDigitRun3 (b :: c :: rest)
  | _ => false

/-- `is_alphanumeric_id` (report_generator.rs lines 176-215). -/
def is_alphanumeric_id (target_name : String) : Bool :=
  let has_letters := target_name.toList.any (·.isAlpha)
  let has_numbers := target_name.toList.any (·.isDigit)
  if !has_letters || !has_numbers then false
  else
    let has_underscore := target_name.toList.contains '_'
    let has_space := target_name.toList.contains ' '
    if has_underscore || has_space then false
    else
      let alphanumeric_only := target_name.toList.all (·.isAlphanum)
      if !alphanumeric_only then false
      else
        let starts_with_number := headIsDigit target_name.toList
        let has_consecutive_numbers := hasDigitRun3 target_name.toList
        starts_with_number || has_consecutive_numbers

/-- `is_custom_action_type` (report_generator.rs lines 228-235). -/
def is_custom_action_type (action_type : String) : Bool :=
  let l := toLowercaseRust action_type
  l = "flow" || l = "apex" || l = "standardinvocableaction" ||
    l = "invocableaction" || l = "generatepromptresponse" ||
    l = "externalservice"

/-- `analyze_custom_actions_with_alphanumeric_targets`
(report_generator.rs lines 240-258): nested push loops. -/
def analyze_custom_actions_with_alphanumeric_targets
    (topics : List TopicReport) : List CustomActionReview :=
  topics.foldl
    (fun results topic =>
      topic.actions.foldl
        (fun results action =>
          if is_custom_action_type action.action_type &&
              is_alphanumeric_id action.target then
            results ++ [⟨topic.name, action.name, action.action_type,
              action.target⟩]
          else results)
        results)
    []

/-- Written after the spec's words for C7: the identifier heuristic as a
single conjunction — at least one letter and one digit, no underscore, no
space, alphanumeric only, and (starts with a digit or has a run of three or
more consecutive digits). -/
def specOpaqueIdHeuristic (t : String) : Bool :=
  (t.toList.any (·.isAlpha)) && (t.toList.any (·.isDigit)) &&
  (!(t.toList.contains '_')) && (!(t.toList.contains ' ')) &&
  (t.toList.all (·.isAlphanum)) &&
  (headIsDigit t.toList || hasDigitRun3 t.toList)

/-- Written after the spec's words for C7: the fixed custom/external
invocation-type set, matched case-insensitively. -/
def specIsCustomType (t : String) : Bool :=
  ["flow", "apex", "standardinvocableaction", "invocableaction",
   "generatepromptresponse", "externalservice"].contains (toLowercaseRust t)

/-- Written after the spec's words for C7: one review entry per action whose
type is in the custom set and whose target satisfies the identifier
heuristic. -/
def specFlaggedReviews (topics : List TopicReport) : List CustomActionReview :=
  topics.flatMap (fun t =>
    (t.actions.filter
        (fun a => specIsCustomType a.action_type && specOpaqueIdHeuristic a.target)).map
      (fun a => ⟨t.name, a.name, a.action_type, a.target⟩))

lemma is_alphanumeric_id_eq_spec (s : String) :
    is_alphanumeric_id s = specOpaqueIdHeuristic s := by
  unfold is_alphanumeric_id specOpaqueIdHeuristic
  simp only []
  generalize s.toList.any (·.isAlpha) = a
  generalize s.toList.any (·.isDigit) = b
  generalize s.toList.contains '_' = u
  generalize s.toList.contains ' ' = sp
  generalize s.toList.all (·.isAlphanum) = al
  generalize headIsDigit s.toList = hd
  generalize hasDigitRun3 s.toList = dr
  cases a <;> cases b <;> cases u <;> cases sp <;> cases al <;>
    cases hd <;> cases dr <;> rfl

lemma is_custom_action_type_eq_spec (t : String) :
    is_custom_action_type t = specIsCustomType t := by
  simp [is_custom_action_type, specIsCustomType, List.contains_cons,
    Bool.or_comm, Bool.or_assoc, Bool.or_left_comm]

lemma fold_push_filter {A B : Type} (cond : A → Bool) (mk : A → B) :
    ∀ (xs : List A) (acc : List B),
      xs.foldl (fun rs x => if cond x then rs ++ [mk x] else rs) acc
        = acc ++ (xs.filter cond).map mk := by
  intro xs
  induction xs with
  | nil => intro acc; simp
  | cons x xsx ih =>
      intro acc
      by_cases h : cond x
      · simp [List.foldl_cons, h, ih, List.filter_cons]
      · simp [List.foldl_cons, h, ih, List.filter_cons]

lemma code_cond_eq_spec (a : ActionReport) :
    (is_custom_action_type a.action_type && is_alphanumeric_id a.target)
      = (specIsCustomType a.action_type && specOpaqueIdHeuristic a.target) := by
  rw [is_custom_action_type_eq_spec, is_alphanumeric_id_eq_spec]

/-- C7: the report analyzer flags an action for manual review exactly when
its invocation type is in the custom/external set (case-insensitively) and
its target satisfies the claim's identifier heuristic (letter+digit, no
underscore, no space, alphanumeric only, starts with a digit or has a run of
three or more consecutive digits); targets failing any condition are not
flagged. -/
theorem c7_review_heuristic (topics : List TopicReport) :
    analyze_custom_actions_with_alphanumeric_targets topics
      = specFlaggedReviews topics := by
  unfold analyze_custom_actions_with_alphanumeric_targets specFlaggedReviews
  suffices h : ∀ acc : List CustomActionReview,
      topics.foldl
        (fun results topic =>
          topic.actions.foldl
            (fun results action =>
              if is_custom_action_type action.action_type &&
                  is_alphanumeric_id action.target then
                results ++ [⟨topic.name, action.name, action.action_type,
                  action.target⟩]
              else results)
            results)
        acc
      = acc ++ topics.flatMap (fun t =>
          (t.actions.filter
              (fun a => specIsCustomType a.action_type &&
                specOpaqueIdHeuristic a.target)).map
            (fun a => ⟨t.name, a.name, a.action_type, a.target⟩)) by
    simpa using h []
  induction topics with
  | nil => intro acc; simp
  | cons t ts ih =>
      intro acc
      simp only [List.foldl_cons, List.flatMap_cons]
      rw [fold_push_filter
            (fun a => is_custom_action_type a.action_type &&
              is_alphanumeric_id a.target)
            (fun a => (⟨t.name, a.name, a.action_type, a.target⟩ :
              CustomActionReview))
            t.actions acc]
      rw [List.filter_congr (fun a _ => code_cond_eq_spec a)]
      rw [ih, List.append_assoc]

-- Sanity checks mirroring the unit tests of report_generator.rs.

example : is_alphanumeric_id "3A7x00000004CqWEAU" = true := by decide
example : is_alphanumeric_id "001xx000003DGbYAAW" = true := by decide
example : is_alphanumeric_id "SvcCopilotTmpl__GetCaseByCaseNumber" = false := by decide
example : is_alphanumeric_id "Get_Invoice_By_Id" = false := by decide
example : is_alphanumeric_id "GetCaseByCaseNumber" = false := by decide
example : is_custom_action_type "FLOW" = true := by decide
example : is_custom_action_type "standardInvocableAction" = true := by decide
example : is_custom_action_type "escalation" = false := by decide

end NGA

namespace NGA

-- ===========================================================================
-- Small option/string utilities shared by the converter embedding.
-- ===========================================================================

/-- Rust `Option::or`. -/
def optOr {α : Type} (a b : Option α) : Option α :=
  match a with
  | some x => some x
  | none => b

/-- Rust `str::contains(substring)`. -/
def isSubstrOf (pat : List Char) : List Char → Bool
  | [] => pat.isEmpty
  | c :: rest => pat.isPrefixOf (c :: rest) || isSubstrOf pat rest

def strContains (s pat : String) : Bool := isSubstrOf pat.toList s.toList

/-- Rust `str::starts_with(prefixString)`. -/
def strStartsWith (s p : String) : Bool := p.toList.isPrefixOf s.toList

/-- Byte-lexicographic string order used by `Vec::sort` (UTF-8 byte order
coincides with scalar-value order). -/
def lexLe : List Char → List Char → Bool
  | [], _ => true
  | _ :: _, [] => false
  | a :: as, b :: bs => if a = b then lexLe as bs else decide (a < b)

def sleb (s t : String) : Bool := lexLe s.toList t.toList

def insertSorted (x : String) : List String → List String
  | [] => [x]
  | y :: ys => if sleb x y then x :: y :: ys else y :: insertSorted x ys

/-- `Vec::sort` for strings (insertion sort; stable and deterministic). -/
def sortStrings : List String → List String
  | [] => []
  | x :: xs => insertSorted x (sortStrings xs)

/-- `Map::get` on a JSON object. -/
def jsonObjGet (fields : List (String × Json)) (k : String) : Option Json :=
  alLookup k fields

-- ===========================================================================
-- converter.rs.
-- ===========================================================================

/-- `build_system_instructions` (converter.rs lines 123-158). -/
def build_system_instructions (E : RegexEngine) (input : AgentforceInput)
    (rules : Option ConversionRules) : String :=
  let parts : List String :=
    (match input.planner_role with
     | some role => [convert_variables_in_text E (some role) rules]
     | none => []) ++
    (match input.planner_company with
     | some company => [convert_variables_in_text E (some company) rules]
     | none => []) ++
    (match input.planner_tone_type with
     | some tone =>
         if tone = "CASUAL" then ["Maintain a casual and friendly tone."]
         else if tone = "FORMAL" then ["Maintain a formal and professional tone."]
         else if tone = "NEUTRAL" then ["Maintain a neutral and balanced tone."]
         else []
     | none => []) ++
    (match input.user_location with
     | some location => ["User location: " ++ location ++ "."]
     | none => [])
  if parts = [] then get_default_system_values.1
  else joinStrSep " " parts

/-- `extract_welcome_message` (converter.rs lines 161-177). -/
def extract_welcome_message (input : AgentforceInput) : String :=
  match input.welcome_message with
  | some msg => msg
  | none =>
      match input.welcome_message_alt with
      | some msg => msg
      | none =>
          let label := (optOr input.label input.name).getD "AI Assistant"
          "Hi, I'm " ++ label ++ ". How can I help you today?"

/-- Cleaned variable name: strip the given side tag, then keep only
alphanumeric/underscore characters (converter.rs lines 199-203, 234-238). -/
def cleanVarName (tag prop_name : String) : String :=
  String.mk ((stringReplace prop_name tag "").toList.filter
    (fun c => rustIsAlphanumeric c || c = '_'))

/-- One input-side property step of `extract_variables` (lines 196-228);
insertion under a fresh key appends to the table. -/
def inputVarStep (rules : Option ConversionRules)
    (vars : List (String × Variable)) (e : String × Property) :
    List (String × Variable) :=
  let clean_name := cleanVarName "Input:" e.1
  if clean_name ≠ "" ∧ ¬ alContains clean_name vars then
    let prop_type := map_property_type rules e.2.prop_type e.2
    vars ++ [(clean_name,
      { var_type := "mutable " ++ prop_type
        label := e.2.title
        source := none
        description := (optOr e.2.description e.2.title).getD
          ("Variable for " ++ clean_name) })]
  else vars

/-- One output-side property step of `extract_variables` (lines 231-286). -/
def outputVarStep (rules : Option ConversionRules) (func : Function)
    (vars : List (String × Variable)) (e : String × Property) :
    List (String × Variable) :=
  let clean_name := cleanVarName "Output:" e.1
  if clean_name ≠ "" ∧ ¬ alContains clean_name vars then
    let prop_type := map_property_type rules e.2.prop_type e.2
    let func_name := (optOr func.local_dev_name (some func.name)).getD "unknown"
    let cat_src : String × Option String :=
      if prop_type = "object" || strContains prop_type "object" then
        ("mutable", none)
      else
        ("linked", some ("@action." ++ func_name ++ "." ++ e.1))
    vars ++ [(clean_name,
      { var_type := cat_src.1 ++ " " ++ prop_type
        label := e.2.title
        source := cat_src.2
        description := (optOr e.2.description e.2.title).getD
          ("Output from " ++ ((optOr func.label (some func.name)).getD "unknown")) })]
  else vars

/-- Variable extraction for one function: the input pass then the output
pass. -/
def extractVarsFunc (rules : Option ConversionRules)
    (vars : List (String × Variable)) (func : Function) :
    List (String × Variable) :=
  let vars1 :=
    match func.input_type with
    | some it =>
        match it.properties with
        | some props => props.foldl (inputVarStep rules) vars
        | none => vars
    | none => vars
  match func.output_type with
  | some ot =>
      match ot.properties with
      | some props => props.foldl (outputVarStep rules func) vars1
      | none => vars1
  | none => vars1

/-- `extract_variables` (converter.rs lines 180-291). -/
def extract_variables (input : AgentforceInput)
    (rules : Option ConversionRules) : List (String × Variable) :=
  match input.plugins with
  | none => []
  | some plugins =>
      plugins.foldl
        (fun vars plugin =>
          match plugin.functions with
          | none => vars
          | some functions => functions.foldl (extractVarsFunc rules) vars)
        []

/-- `build_detailed_action_target` (converter.rs lines 533-559). -/
def build_detailed_action_target (func : Function)
    (_rules : Option ConversionRules) : String :=
  let target_type := func.invocation_target_type.getD "action"
  let target_name :=
    (optOr (optOr func.invocation_target_name func.invocation_target_id)
      (some func.name)).getD "unknown"
  let type_map : List (String × String) :=
    [("flow", "flow"), ("apex", "apex"),
     ("standardInvocableAction", "standardInvocableAction"),
     ("generatePromptResponse", "generatePromptResponse")]
  let mapped_type := (alLookup target_type type_map).getD target_type
  mapped_type ++ "://" ++ target_name

/-- `build_detailed_inputs` (converter.rs lines 562-599). -/
def build_detailed_inputs (input_type : InputOutputType)
    (rules : Option ConversionRules) : List (String × ActionInputDef) :=
  match input_type.properties with
  | none => []
  | some props =>
      props.foldl
        (fun inputs e =>
          let clean_name := stringReplace e.1 "Input:" ""
          let prop_type := map_property_type rules e.2.prop_type e.2
          let is_required :=
            match input_type.required with
            | some r => r.contains e.1
            | none => false
          let is_user_input := e.2.is_user_input.getD is_required
          alInsert clean_name
            { input_type := prop_type
              const_value := optOr e.2.const_value e.2.default_value
              description := optOr e.2.description e.2.title
              label := optOr e.2.title (some clean_name)
              is_required := is_required
              is_user_input := is_user_input
              complex_data_type_name := e.2.complex_data_type_name }
            inputs)
        []

/-- `build_detailed_outputs` (converter.rs lines 602-632). -/
def build_detailed_outputs (output_type : InputOutputType)
    (rules : Option ConversionRules) : List (String × ActionOutputDef) :=
  match output_type.properties with
  | none => []
  | some props =>
      props.foldl
        (fun outputs e =>
          let clean_name := stringReplace e.1 "Output:" ""
          let prop_type := map_property_type rules e.2.prop_type e.2
          let is_displayable := e.2.is_displayable.getD false
          let is_used_by_planner := e.2.is_used_by_planner.getD true
          alInsert clean_name
            { output_type := prop_type
              description := optOr e.2.description e.2.title
              label := optOr e.2.title (some clean_name)
              is_displayable := is_displayable
              is_used_by_planner := is_used_by_planner
              complex_data_type_name := e.2.complex_data_type_name }
            outputs)
        []

/-- `build_detailed_actions` (converter.rs lines 484-530). -/
def build_detailed_actions (plugin : Plugin)
    (rules : Option ConversionRules) : Except String (List (String × Action)) :=
  .ok
    (match plugin.functions with
     | none => []
     | some functions =>
         functions.foldl
           (fun actions func =>
             let action_name := sanitize_action_name
               (optOr func.local_dev_name (some func.name))
             let fallback_desc :=
               (optOr func.description func.label).getD action_name
             let action : Action :=
               { description := clean_description (some fallback_desc)
                 label := func.label
                 require_user_confirmation :=
                   func.require_user_confirmation.getD false
                 include_in_progress_indicator :=
                   func.include_in_progress_indicator.getD false
                 progress_indicator_message := func.progress_indicator_message
                 source := func.source
                 target := build_detailed_action_target func rules
                 inputs :=
                   match func.input_type with
                   | some it => some (build_detailed_inputs it rules)
                   | none => none
                 outputs :=
                   match func.output_type with
                   | some ot => some (build_detailed_outputs ot rules)
                   | none => none }
             alInsert action_name action actions)
           [])

/-- `build_reasoning_action_references` (converter.rs lines 407-429). -/
def build_reasoning_action_references (actions : List (String × Action)) :
    List (String × ReasoningAction) :=
  actions.foldl
    (fun reasoning_actions e =>
      let with_params :=
        e.2.inputs.map (fun inputs => sortStrings (inputs.map Prod.fst))
      alInsert e.1
        { target := "@actions." ++ e.1
          description := none
          with_params := with_params }
        reasoning_actions)
    []

/-- `build_topic_instructions` (converter.rs lines 432-481). -/
def build_topic_instructions (E : RegexEngine) (plugin : Plugin)
    (rules : Option ConversionRules) : String :=
  let scope_parts :=
    match plugin.scope with
    | some scope => [convert_variables_in_text E (some scope) rules]
    | none => []
  let instr_parts :=
    match plugin.instruction_definitions with
    | some definitions =>
        definitions.foldl
          (fun acc instr =>
            match instr.description with
            | some desc => acc ++ [convert_variables_in_text E (some desc) rules]
            | none => acc)
          []
    | none => []
  let topic_name :=
    (optOr plugin.local_dev_name (some plugin.name)).elim ""
      (fun s => toLowercaseRust s)
  let security_parts :=
    if strContains topic_name "off_topic" || strContains topic_name "offtopic" ||
        strContains topic_name "ambiguous" || strContains topic_name "general" then
      match rules with
      | some r =>
          match r.security_rules with
          | some security_rules =>
              match security_rules.default_rules with
              | some default_rules =>
                  if default_rules ≠ [] then
                    ["Rules:"] ++ default_rules.map (fun rule => "  " ++ rule)
                  else []
              | none => []
          | none => []
      | none => []
    else []
  let parts := scope_parts ++ instr_parts ++ security_parts
  if parts = [] then "Handle user requests appropriately."
  else joinStrSep "\n" parts

/-- `convert_plugin_to_topic` (converter.rs lines 368-404). -/
def convert_plugin_to_topic (E : RegexEngine) (plugin : Plugin)
    (_all_plugins : List Plugin) (rules : Option ConversionRules) :
    Except String Topic :=
  let instructions := build_topic_instructions E plugin rules
  match build_detailed_actions plugin rules with
  | .error e => .error e
  | .ok actions =>
      let reasoning_actions := build_reasoning_action_references actions
      let fallback_name := (optOr plugin.label (some plugin.name)).getD "Unknown"
      let merged_description := merge_description_and_scope
        plugin.description plugin.scope fallback_name
      .ok
        { label := plugin.label.getD (format_label plugin.name)
          description := merged_description
          reasoning :=
            { instructions := instructions
              actions :=
                if reasoning_actions = [] then none else some reasoning_actions }
          actions := some actions }

/-- `get_topic_selector_template` (converter.rs lines 1060-1095):
(label, description, instructions). -/
def get_topic_selector_template (rules : Option ConversionRules) :
    String × String × String :=
  match rules with
  | some r =>
      match r.templates with
      | some templates =>
          match templates.topic_selector with
          | some topic_selector =>
              (topic_selector.label.getD "Topic Selector",
               topic_selector.description.getD
                 "Welcome the user and determine the appropriate topic based on user input",
               ((topic_selector.reasoning.bind (·.instructions)).getD
                 "Select the best tool to call based on conversation history and user's intent."))
          | none =>
              ("Topic Selector",
               "Welcome the user and determine the appropriate topic based on user input",
               "Select the best tool to call based on conversation history and user's intent.")
      | none =>
          ("Topic Selector",
           "Welcome the user and determine the appropriate topic based on user input",
           "Select the best tool to call based on conversation history and user's intent.")
  | none =>
      ("Topic Selector",
       "Welcome the user and determine the appropriate topic based on user input",
       "Select the best tool to call based on conversation history and user's intent.")

/-- Target extraction from a template action value: object with a "target"
string field, plain string, or the JSON rendering (converter.rs lines
1111-1120 and 1260-1269). -/
def templateActionTarget (value : Json) : String :=
  match value.as_object with
  | some obj =>
      match (jsonObjGet obj "target").bind Json.as_str with
      | some s => s
      | none => value.toText
  | none =>
      match value.as_str with
      | some s => s
      | none => value.toText

/-- Description extraction from a template action value (converter.rs lines
1271-1277). -/
def templateActionDescription (value : Json) : Option String :=
  match value.as_object with
  | some obj => (jsonObjGet obj "description").bind Json.as_str
  | none => none

/-- Insert an entry only when its key is absent (the
`if !defaults.contains_key(..) { defaults.insert(..) }` pattern of
converter.rs lines 1137-1167). -/
def guardInsert (k : String) (v : ReasoningAction)
    (m : List (String × ReasoningAction)) : List (String × ReasoningAction) :=
  if ¬ alContains k m then alInsert k v m else m

/-- The three guaranteed entries of `get_default_topic_transitions`
(converter.rs lines 1137-1167), added only when not already present. -/
def addGuaranteedTransitions (m : List (String × ReasoningAction)) :
    List (String × ReasoningAction) :=
  guardInsert "go_to_ambiguous_question"
    { target := "@utils.transition to @topic.ambiguous_question"
      description := none
      with_params := none }
    (guardInsert "go_to_off_topic"
      { target := "@utils.transition to @topic.off_topic"
        description := none
        with_params := none }
      (guardInsert "go_to_escalation"
        { target := "@utils.transition to @topic.escalation"
          description := none
          with_params := none }
        m))

/-- `get_default_topic_transitions` (converter.rs lines 1098-1170). -/
def get_default_topic_transitions (rules : Option ConversionRules) :
    List (String × ReasoningAction) :=
  let fromTemplate :=
    match rules with
    | some r =>
        match r.templates with
        | some templates =>
            match templates.topic_selector with
            | some topic_selector =>
                match topic_selector.reasoning with
                | some reasoning =>
                    match reasoning.actions with
                    | some actions =>
                        actions.foldl
                          (fun defaults e =>
                            alInsert e.1
                              { target := templateActionTarget e.2
                                description := none
                                with_params := none }
                              defaults)
                          []
                    | none => []
                | none => []
            | none => []
        | none => []
    | none => []
  addGuaranteedTransitions fromTemplate

/-- `create_topic_selector_from_plugins` (converter.rs lines 970-1015). -/
def create_topic_selector_from_plugins (plugins : List Plugin)
    (rules : Option ConversionRules) : Except String Topic :=
  let actions0 :=
    plugins.foldl
      (fun actions plugin =>
        if plugin.plugin_type ≠ some "TOPIC" then actions
        else
          let topic_name := sanitize_topic_name
            (optOr plugin.local_dev_name (some plugin.name))
          alInsert ("go_to_" ++ topic_name)
            { target := "@utils.transition to @topic." ++ topic_name
              description := none
              with_params := none }
            actions)
      []
  let default_transitions := get_default_topic_transitions rules
  let actions :=
    default_transitions.foldl
      (fun actions e =>
        if ¬ alContains e.1 actions then alInsert e.1 e.2 actions else actions)
      actions0
  let template := get_topic_selector_template rules
  .ok
    { label := template.1
      description := template.2.1
      reasoning := { instructions := template.2.2, actions := some actions }
      actions := none }

/-- `create_topic_selector_from_simple_topics` (converter.rs lines
1018-1057). -/
def create_topic_selector_from_simple_topics (topics : List TopicInput)
    (rules : Option ConversionRules) : Except String Topic :=
  let actions0 :=
    topics.foldl
      (fun actions topic =>
        let topic_name := sanitize_topic_name (optOr topic.name topic.id)
        alInsert ("go_to_" ++ topic_name)
          { target := "@utils.transition to @topic." ++ topic_name
            description := none
            with_params := none }
          actions)
      []
  let default_transitions := get_default_topic_transitions rules
  let actions :=
    default_transitions.foldl
      (fun actions e =>
        if ¬ alContains e.1 actions then alInsert e.1 e.2 actions else actions)
      actions0
  let template := get_topic_selector_template rules
  .ok
    { label := template.1
      description := template.2.1
      reasoning := { instructions := template.2.2, actions := some actions }
      actions := none }

/-- `create_default_topic_selector` (converter.rs lines 1173-1188). -/
def create_default_topic_selector (rules : Option ConversionRules) :
    Except String Topic :=
  let template := get_topic_selector_template rules
  let default_transitions := get_default_topic_transitions rules
  .ok
    { label := template.1
      description := template.2.1
      reasoning :=
        { instructions := template.2.2, actions := some default_transitions }
      actions := none }

/-- `create_default_escalation_topic` (converter.rs lines 1226-1313). -/
def create_default_escalation_topic (rules : Option ConversionRules) :
    Except String Topic :=
  let template :=
    match rules with
    | some r => r.templates.bind (·.escalation)
    | none => none
  let default_label := (template.bind (·.label)).getD "Escalation"
  let default_desc := (template.bind (·.description)).getD
    "Handles requests from users who want to transfer or escalate their conversation to a live human agent."
  let default_instructions :=
    ((template.bind (·.reasoning)).bind (·.instructions)).getD
      "If a user explicitly asks to transfer to a live agent, escalate the conversation.\nIf escalation to a live agent fails for any reason, acknowledge the issue and ask the user whether they would like to log a support case instead."
  let actions0 :=
    match template with
    | some t =>
        match t.reasoning with
        | some reasoning =>
            match reasoning.actions with
            | some template_actions =>
                template_actions.foldl
                  (fun actions e =>
                    alInsert e.1
                      { target := templateActionTarget e.2
                        description := templateActionDescription e.2
                        with_params := none }
                      actions)
                  []
            | none => []
        | none => []
    | none => []
  let actions :=
    if ¬ alContains "escalate_to_human" actions0 then
      alInsert "escalate_to_human"
        { target := "@utils.escalate"
          description := some "Call this tool to escalate to a human agent."
          with_params := none }
        actions0
    else actions0
  .ok
    { label := default_label
      description := default_desc
      reasoning := { instructions := default_instructions, actions := some actions }
      actions := none }

/-- `create_default_off_topic` (converter.rs lines 1316-1370). -/
def create_default_off_topic (rules : Option ConversionRules) :
    Except String Topic :=
  let template :=
    match rules with
    | some r => r.templates.bind (·.off_topic)
    | none => none
  let default_label := (template.bind (·.label)).getD "Off Topic"
  let default_desc := (template.bind (·.description)).getD
    "Redirect conversation to relevant topics when user request goes off-topic"
  let base_instructions := (template.bind (·.base_instructions)).getD
    "Your job is to redirect the conversation to relevant topics politely and succinctly.\nThe user request is off-topic. NEVER answer general knowledge questions. Only respond to general greetings and questions about your capabilities.\nDo not acknowledge the user's off-topic question. Redirect the conversation by asking how you can help with questions related to the pre-defined topics."
  let include_security := (template.bind (·.include_security_rules)).getD true
  let instructions :=
    if include_security then
      match rules with
      | some r =>
          match r.security_rules with
          | some security_rules =>
              match security_rules.default_rules with
              | some default_rules =>
                  if default_rules ≠ [] then
                    base_instructions ++ "\nRules:\n  " ++
                      joinStrSep "\n  " default_rules
                  else base_instructions
              | none => base_instructions
          | none => base_instructions
      | none => base_instructions
    else base_instructions
  .ok
    { label := default_label
      description := default_desc
      reasoning := { instructions := instructions, actions := some [] }
      actions := none }

/-- `create_default_ambiguous_topic` (converter.rs lines 1373-1432). -/
def create_default_ambiguous_topic (rules : Option ConversionRules) :
    Except String Topic :=
  let template :=
    match rules with
    | some r => r.templates.bind (·.ambiguous_question)
    | none => none
  let default_label := (template.bind (·.label)).getD "Ambiguous Question"
  let default_desc := (template.bind (·.description)).getD
    "Redirect conversation to relevant topics when user request is too ambiguous"
  let base_instructions := (template.bind (·.base_instructions)).getD
    "Your job is to help the user provide clearer, more focused requests for better assistance.\nDo not answer any of the user's ambiguous questions. Do not invoke any actions.\nPolitely guide the user to provide more specific details about their request.\nEncourage them to focus on their most important concern first to ensure you can provide the most helpful response."
  let include_security := (template.bind (·.include_security_rules)).getD true
  let instructions :=
    if include_security then
      match rules with
      | some r =>
          match r.security_rules with
          | some security_rules =>
              match security_rules.default_rules with
              | some default_rules =>
                  if default_rules ≠ [] then
                    base_instructions ++ "\nRules:\n  " ++
                      joinStrSep "\n  " default_rules
                  else base_instructions
              | none => base_instructions
          | none => base_instructions
      | none => base_instructions
    else base_instructions
  .ok
    { label := default_label
      description := default_desc
      reasoning := { instructions := instructions, actions := some [] }
      actions := none }

/-- `has_topic_by_name` (converter.rs lines 1217-1223). -/
def has_topic_by_name (nga : NGAOutput) (name : String) : Bool :=
  let name_lower := toLowercaseRust name
  (alKeys nga.topics).any (fun key =>
    (strStartsWith key "topic " || strStartsWith key "start_agent ") &&
      strContains (toLowercaseRust key) name_lower)

/-- First guarded insertion of `ensure_default_topics` (converter.rs lines
1195-1200). -/
def ensureEscalation (nga : NGAOutput) (rules : Option ConversionRules) :
    Except String NGAOutput :=
  if ¬ has_topic_by_name nga "escalation" then
    match create_default_escalation_topic rules with
    | .error e => .error e
    | .ok t => .ok { nga with topics := alInsert "topic escalation" t nga.topics }
  else .ok nga

/-- Second guarded insertion of `ensure_default_topics` (converter.rs lines
1201-1206). -/
def ensureOffTopic (nga : NGAOutput) (rules : Option ConversionRules) :
    Except String NGAOutput :=
  if ¬ has_topic_by_name nga "off_topic" ∧ ¬ has_topic_by_name nga "offtopic" then
    match create_default_off_topic rules with
    | .error e => .error e
    | .ok t => .ok { nga with topics := alInsert "topic off_topic" t nga.topics }
  else .ok nga

/-- Third guarded insertion of `ensure_default_topics` (converter.rs lines
1207-1212). -/
def ensureAmbiguous (nga : NGAOutput) (rules : Option ConversionRules) :
    Except String NGAOutput :=
  if ¬ has_topic_by_name nga "ambiguous" then
    match create_default_ambiguous_topic rules with
    | .error e => .error e
    | .ok t =>
        .ok { nga with topics := alInsert "topic ambiguous_question" t nga.topics }
  else .ok nga

/-- `ensure_default_topics` (converter.rs lines 1191-1214): the three guarded
insertions in order. -/
def ensure_default_topics (nga : NGAOutput)
    (rules : Option ConversionRules) : Except String NGAOutput :=
  match ensureEscalation nga rules with
  | .error e => .error e
  | .ok nga1 =>
      match ensureOffTopic nga1 rules with
      | .error e => .error e
      | .ok nga2 => ensureAmbiguous nga2 rules

/-- The adaptive-response rule lookup chain, repeated inline in all three
converters (e.g. converter.rs lines 76-85). -/
def adaptiveResponseDefault (rules : Option ConversionRules) : Bool :=
  ((((rules.bind (·.connection)).bind (·.fields)).bind
      (·.adaptive_response_allowed)).bind (·.default_val)).getD true

/-- Per-plugin step of the topics loop in `convert_agentforce_format`
(converter.rs lines 101-113), with the `?` on `convert_plugin_to_topic`
modelled by explicit error propagation. -/
def insertPluginTopicStep (E : RegexEngine) (plugins : List Plugin)
    (rules : Option ConversionRules) (topics : List (String × Topic))
    (plugin : Plugin) : Except String (List (String × Topic)) :=
  if plugin.plugin_type ≠ some "TOPIC" then .ok topics
  else
    match convert_plugin_to_topic E plugin plugins rules with
    | .error e => .error e
    | .ok topic =>
        .ok (alInsert
          ("topic " ++ sanitize_topic_name
            (optOr plugin.local_dev_name (some plugin.name)))
          topic topics)

/-- `convert_agentforce_format` (converter.rs lines 27-120). -/
def convert_agentforce_format (E : RegexEngine) (input : AgentforceInput)
    (rules : Option ConversionRules) : Except String NGAOutput :=
  let nga1 : NGAOutput :=
    { system :=
        { instructions := build_system_instructions E input rules
          messages :=
            { welcome := extract_welcome_message input
              error := "Sorry, it looks like something has gone wrong." } }
      config :=
        { default_agent_user :=
            "agentforce_service_agent@" ++ input.id.getD "example" ++ ".ext"
          agent_label :=
            (optOr input.label input.name).getD "Agentforce Service Agent"
          developer_name :=
            generate_developer_name ((optOr input.name input.label).getD "Agent")
          description := clean_description input.description }
      variables_ := extract_variables input rules
      language :=
        { default_locale := input.locale.getD get_default_language_values.1
          additional_locales := format_locales input.secondary_locales
          all_additional_locales := get_default_language_values.2 }
      topics := []
      connections :=
        alInsert
          ("connection " ++
            (if input.voice_config.isSome then "voice" else "messaging"))
          { adaptive_response_allowed := adaptiveResponseDefault rules } [] }
  match input.plugins with
  | some plugins =>
      match create_topic_selector_from_plugins plugins rules with
      | .error e => .error e
      | .ok topic_selector =>
          match plugins.foldlM (insertPluginTopicStep E plugins rules)
              (alInsert "start_agent topic_selector" topic_selector nga1.topics) with
          | .error e => .error e
          | .ok topics =>
              ensure_default_topics { nga1 with topics := topics } rules
  | none => ensure_default_topics nga1 rules

/-- `convert_simple_actions_detailed` (converter.rs lines 786-876). -/
def convert_simple_actions_detailed (actions : Option (List ActionInput))
    (_rules : Option ConversionRules) : Except String (List (String × Action)) :=
  .ok
    (match actions with
     | none => []
     | some actions =>
         actions.foldl
           (fun result action =>
             let action_name := (optOr action.name action.id).getD "action"
             if action.target.isSome || action.action_type = some "transition" then
               result
             else if action.action_type = some "escalate" then result
             else
               let nga_action : Action :=
                 { description := action.description.getD action_name
                   label := action.label
                   require_user_confirmation :=
                     action.require_user_confirmation.getD false
                   include_in_progress_indicator :=
                     action.include_in_progress_indicator.getD false
                   progress_indicator_message := action.progress_indicator_message
                   source := action.source
                   target :=
                     (optOr action.invocation_target action.target_name).getD
                       ("action://" ++ action_name)
                   inputs :=
                     match action.inputs with
                     | some inputs =>
                         some (inputs.foldl
                           (fun nga_inputs e =>
                             alInsert e.1
                               { input_type := (e.2.prop_type).getD "string"
                                 const_value := e.2.default
                                 description := e.2.description
                                 label := optOr e.2.label (some e.1)
                                 is_required := e.2.required.getD false
                                 is_user_input := e.2.is_user_input.getD true
                                 complex_data_type_name := e.2.complex_type }
                               nga_inputs)
                           [])
                     | none => none
                   outputs :=
                     match action.outputs with
                     | some outputs =>
                         some (outputs.foldl
                           (fun nga_outputs e =>
                             alInsert e.1
                               { output_type := (e.2.prop_type).getD "string"
                                 description := e.2.description
                                 label := optOr e.2.label (some e.1)
                                 is_displayable := e.2.is_displayable.getD false
                                 is_used_by_planner :=
                                   e.2.is_used_by_planner.getD true
                                 complex_data_type_name := e.2.complex_type }
                               nga_outputs)
                           [])
                     | none => none }
               alInsert action_name nga_action result)
           [])

/-- `convert_simple_format` (converter.rs lines 635-783). -/
def convert_simple_format (_E : RegexEngine) (input : AgentforceInput)
    (rules : Option ConversionRules) : Except String NGAOutput :=
  let defaults := get_default_system_values
  let lang_defaults := get_default_language_values
  let nga0 : NGAOutput :=
    { system :=
        { instructions := input.description.getD defaults.1
          messages :=
            { welcome := input.welcome_message.getD defaults.2.1
              error := defaults.2.2 } }
      config :=
        { default_agent_user := "agentforce_service_agent@example.ext"
          agent_label := (optOr input.label input.name).getD "Custom Agent"
          developer_name :=
            generate_developer_name ((optOr input.name input.label).getD "Agent")
          description := input.description.getD "Service Agent" }
      variables_ := []
      language :=
        { default_locale := input.locale.getD lang_defaults.1
          additional_locales := ""
          all_additional_locales := lang_defaults.2 }
      topics := []
      connections := [] }
  let varsTable :=
    match input.variables_ with
    | some vars =>
        vars.foldl
          (fun table v =>
            match optOr v.name v.id with
            | some name =>
                let var_type := v.var_type.getD "string"
                let cat_src : String × Option String :=
                  if var_type = "object" || strContains var_type "object" then
                    ("mutable", none)
                  else if v.source.isSome then ("linked", v.source)
                  else ("mutable", none)
                alInsert name
                  { var_type := cat_src.1 ++ " " ++ var_type
                    label := v.label
                    source := cat_src.2
                    description := v.description.getD ("Variable " ++ name) }
                  table
            | none => table)
          []
    | none => []
  let nga1 :=
    { nga0 with
      variables_ := varsTable
      connections :=
        alInsert "connection messaging"
          { adaptive_response_allowed := adaptiveResponseDefault rules }
          nga0.connections }
  match input.topics with
  | some topics =>
      match create_topic_selector_from_simple_topics topics rules with
      | .error e => .error e
      | .ok topic_selector =>
          let newTopics :=
            topics.foldl
              (fun acc topic =>
                let topic_name := sanitize_topic_name (optOr topic.name topic.id)
                let nga_topic : Topic :=
                  { label := topic.label.getD (format_label topic_name)
                    description := merge_description_and_scope
                      topic.description topic.scope topic_name
                    reasoning :=
                      { instructions :=
                          (optOr topic.instructions topic.reasoning).getD
                            "Handle user requests appropriately."
                        actions := none }
                    actions :=
                      (convert_simple_actions_detailed topic.actions rules).toOption }
                alInsert ("topic " ++ topic_name) nga_topic acc)
              (alInsert "start_agent topic_selector" topic_selector nga1.topics)
          ensure_default_topics { nga1 with topics := newTopics } rules
  | none => ensure_default_topics nga1 rules

/-- `convert_generic_format` (converter.rs lines 879-967). -/
def convert_generic_format (input : AgentforceInput)
    (rules : Option ConversionRules) : Except String NGAOutput :=
  let defaults := get_default_system_values
  let lang_defaults := get_default_language_values
  let nga0 : NGAOutput :=
    { system :=
        { instructions := input.planner_role.getD defaults.1
          messages := { welcome := defaults.2.1, error := defaults.2.2 } }
      config :=
        { default_agent_user := "agentforce_service_agent@example.ext"
          agent_label := (optOr input.label input.name).getD "Custom Agent"
          developer_name := generate_developer_name (input.name.getD "Agent")
          description := input.description.getD "Service Agent" }
      variables_ := []
      language :=
        { default_locale := input.locale.getD lang_defaults.1
          additional_locales := ""
          all_additional_locales := lang_defaults.2 }
      topics := []
      connections :=
        alInsert "connection messaging"
          { adaptive_response_allowed := adaptiveResponseDefault rules } [] }
  match create_default_topic_selector rules with
  | .error e => .error e
  | .ok ts =>
      match create_default_escalation_topic rules with
      | .error e => .error e
      | .ok esc =>
          match create_default_off_topic rules with
          | .error e => .error e
          | .ok offt =>
              match create_default_ambiguous_topic rules with
              | .error e => .error e
              | .ok amb =>
                  .ok
                    { nga0 with
                      topics :=
                        alInsert "topic ambiguous_question" amb
                          (alInsert "topic off_topic" offt
                            (alInsert "topic escalation" esc
                              (alInsert "start_agent topic_selector" ts
                                nga0.topics))) }

/-- Dispatch after the plugin check: pre-structured shape if a nonempty
topic list is present, else the generic fallback (converter.rs lines
16-23). -/
def detectTopicsOrGeneric (E : RegexEngine) (input : AgentforceInput)
    (rules : Option ConversionRules) : Except String NGAOutput :=
  match input.topics with
  | some topics =>
      if ¬ topics.isEmpty then convert_simple_format E input rules
      else convert_generic_format input rules
  | none => convert_generic_format input rules

/-- `detect_and_convert` (converter.rs lines 7-24). -/
def detect_and_convert (E : RegexEngine) (input : AgentforceInput)
    (rules : Option ConversionRules) : Except String NGAOutput :=
  match input.plugins with
  | some plugins =>
      if ¬ plugins.isEmpty then convert_agentforce_format E input rules
      else detectTopicsOrGeneric E input rules
  | none => detectTopicsOrGeneric E input rules

/-- The action count computed by `convert_agent` (lib.rs lines 90-97): the
sum over all topics of the size of the detailed action map. -/
def action_count (nga : NGAOutput) : Nat :=
  (nga.topics.map (fun t => (t.2.actions.getD []).length)).sum

end NGA

namespace NGA

-- ===========================================================================
-- Claims C1 and C9.
-- ===========================================================================

lemma alKeys_alInsert {α : Type} (k : String) (v : α) (m : List (String × α)) :
    alKeys (alInsert k v m) =
      if alContains k m then alKeys m else alKeys m ++ [k] := by
  unfold alInsert
  split
  · next h =>
      simp only [h, if_true, alKeys, List.map_map]
      apply List.map_congr_left
      intro e _
      by_cases he : e.1 = k <;> simp [he]
  · next h => simp [h, alKeys]

lemma foldlM_except_ok {α β : Type} (f : β → α → Except String β)
    (h : ∀ b a, ∃ c, f b a = .ok c) :
    ∀ (l : List α) (acc : β), ∃ r, l.foldlM f acc = .ok r := by
  intro l
  induction l with
  | nil => intro acc; exact ⟨acc, rfl⟩
  | cons a as ih =>
      intro acc
      obtain ⟨c, hc⟩ := h acc a
      obtain ⟨r, hr⟩ := ih c
      refine ⟨r, ?_⟩
      simp only [List.foldlM_cons, hc]
      simpa using hr

lemma ensureEscalation_ok (nga : NGAOutput) (rules : Option ConversionRules) :
    ∃ out, ensureEscalation nga rules = .ok out := by
  unfold ensureEscalation
  by_cases h : has_topic_by_name nga "escalation" = true
  · rw [if_neg (by simp [h])]
    exact ⟨_, rfl⟩
  · rw [if_pos (by simp [h])]
    exact ⟨_, rfl⟩

lemma ensureOffTopic_ok (nga : NGAOutput) (rules : Option ConversionRules) :
    ∃ out, ensureOffTopic nga rules = .ok out := by
  unfold ensureOffTopic
  by_cases h : (¬ has_topic_by_name nga "off_topic" = true ∧
      ¬ has_topic_by_name nga "offtopic" = true)
  · rw [if_pos h]
    exact ⟨_, rfl⟩
  · rw [if_neg h]
    exact ⟨_, rfl⟩

lemma ensureAmbiguous_ok (nga : NGAOutput) (rules : Option ConversionRules) :
    ∃ out, ensureAmbiguous nga rules = .ok out := by
  unfold ensureAmbiguous
  by_cases h : has_topic_by_name nga "ambiguous" = true
  · rw [if_neg (by simp [h])]
    exact ⟨_, rfl⟩
  · rw [if_pos (by simp [h])]
    exact ⟨_, rfl⟩

lemma ensure_default_topics_ok (nga : NGAOutput) (rules : Option ConversionRules) :
    ∃ out, ensure_default_topics nga rules = .ok out := by
  unfold ensure_default_topics
  obtain ⟨n1, h1⟩ := ensureEscalation_ok nga rules
  rw [h1]
  simp only []
  obtain ⟨n2, h2⟩ := ensureOffTopic_ok n1 rules
  rw [h2]
  simp only []
  exact ensureAmbiguous_ok n2 rules

lemma convert_plugin_to_topic_ok (E : RegexEngine) (p : Plugin)
    (ps : List Plugin) (rules : Option ConversionRules) :
    ∃ t, convert_plugin_to_topic E p ps rules = .ok t :=
  ⟨_, rfl⟩

lemma insertPluginTopicStep_ok (E : RegexEngine) (plugins : List Plugin)
    (rules : Option ConversionRules) (b : List (String × Topic)) (a : Plugin) :
    ∃ c, insertPluginTopicStep E plugins rules b a = .ok c := by
  unfold insertPluginTopicStep
  by_cases hty : a.plugin_type ≠ some "TOPIC"
  · rw [if_pos hty]
    exact ⟨b, rfl⟩
  · rw [if_neg hty]
    obtain ⟨t, ht⟩ := convert_plugin_to_topic_ok E a plugins rules
    rw [ht]
    exact ⟨_, rfl⟩

lemma convert_agentforce_format_ok (E : RegexEngine) (input : AgentforceInput)
    (rules : Option ConversionRules) :
    ∃ nga, convert_agentforce_format E input rules = .ok nga := by
  unfold convert_agentforce_format
  cases hp : input.plugins with
  | none => exact ensure_default_topics_ok _ rules
  | some plugins =>
      simp only []
      obtain ⟨ts, hts⟩ : ∃ ts, create_topic_selector_from_plugins plugins rules
          = .ok ts := ⟨_, rfl⟩
      rw [hts]
      simp only []
      obtain ⟨tps, htps⟩ :=
        foldlM_except_ok (insertPluginTopicStep E plugins rules)
          (insertPluginTopicStep_ok E plugins rules) plugins _
      rw [htps]
      exact ensure_default_topics_ok _ rules

lemma convert_simple_format_ok (E : RegexEngine) (input : AgentforceInput)
    (rules : Option ConversionRules) :
    ∃ nga, convert_simple_format E input rules = .ok nga := by
  unfold convert_simple_format
  cases ht : input.topics with
  | none => exact ensure_default_topics_ok _ rules
  | some topics =>
      simp only []
      obtain ⟨ts, hts⟩ : ∃ ts, create_topic_selector_from_simple_topics topics rules
          = .ok ts := ⟨_, rfl⟩
      rw [hts]
      exact ensure_default_topics_ok _ rules

lemma convert_generic_format_ok (input : AgentforceInput)
    (rules : Option ConversionRules) :
    ∃ nga, convert_generic_format input rules = .ok nga :=
  ⟨_, rfl⟩

/-- C9: for every parsed input document and every rules value (present or
absent), the conversion step always returns a result and never an error;
every rules-resolution failure path degrades to defaults rather than
propagating (the rules argument being `Option`-valued models the
parse-failure-to-defaults behaviour of `parse_rules`). -/
theorem c9_conversion_total (E : RegexEngine) (input : AgentforceInput)
    (rules : Option ConversionRules) :
    ∃ nga, detect_and_convert E input rules = .ok nga := by
  unfold detect_and_convert detectTopicsOrGeneric
  cases hp : input.plugins with
  | some plugins =>
      by_cases hne : plugins.isEmpty
      · simp only [hne]
        cases ht : input.topics with
        | some topics =>
            by_cases htne : topics.isEmpty
            · simp [htne, convert_generic_format_ok]
            · simp [htne, convert_simple_format_ok]
        | none => simp [convert_generic_format_ok]
      · simp [hne, convert_agentforce_format_ok]
  | none =>
      cases ht : input.topics with
      | some topics =>
          by_cases htne : topics.isEmpty
          · simp [htne, convert_generic_format_ok]
          · simp [htne, convert_simple_format_ok]
      | none => simp [convert_generic_format_ok]

/-- C1: for every input whose plugin list and topic list are absent or
empty, conversion succeeds for any rules value and the produced topic map
holds exactly the topic-selector entry plus the three default topics. -/
theorem c1_minimal_shape (E : RegexEngine) (input : AgentforceInput)
    (rules : Option ConversionRules)
    (hp : input.plugins = none ∨ input.plugins = some [])
    (ht : input.topics = none ∨ input.topics = some []) :
    ∃ nga, detect_and_convert E input rules = .ok nga ∧
      alKeys nga.topics =
        ["start_agent topic_selector", "topic escalation", "topic off_topic",
         "topic ambiguous_question"] := by
  have hred : detect_and_convert E input rules = convert_generic_format input rules := by
    unfold detect_and_convert detectTopicsOrGeneric
    rcases hp with hp | hp <;> rcases ht with ht | ht <;> simp [hp, ht]
  rw [hred]
  exact ⟨_, rfl, rfl⟩

/-- C1 witness: the theorem applied at the all-absent input with no rules. -/
theorem c1_minimal_shape_witness :
    ∃ nga, detect_and_convert nullEngine emptyInput none = .ok nga ∧
      alKeys nga.topics =
        ["start_agent topic_selector", "topic escalation", "topic off_topic",
         "topic ambiguous_question"] :=
  c1_minimal_shape nullEngine emptyInput none (Or.inl rfl) (Or.inl rfl)

end NGA

namespace NGA

-- ===========================================================================
-- Claim C2: key-set lemmas for the association-list map model.
-- ===========================================================================

lemma alContains_iff_mem {α : Type} (k : String) (m : List (String × α)) :
    alContains k m = true ↔ k ∈ alKeys m := by
  induction m with
  | nil => simp [alContains, alLookup, alKeys]
  | cons e rest ih =>
      by_cases h : e.1 = k
      · simp [alContains, alLookup, alKeys, h]
      · simp only [alContains, alLookup, alKeys, h, if_false, List.map_cons,
          List.mem_cons]
        rw [← alKeys]
        rw [← alContains, ih]
        constructor
        · intro hm; exact Or.inr hm
        · rintro (hm | hm)
          · exact absurd hm.symm h
          · exact hm

lemma mem_alKeys_alInsert {α : Type} (k0 k : String) (v : α)
    (m : List (String × α)) (h : k0 ∈ alKeys m) :
    k0 ∈ alKeys (alInsert k v m) := by
  rw [alKeys_alInsert]
  split
  · exact h
  · exact List.mem_append_left _ h

lemma self_mem_alKeys_alInsert {α : Type} (k : String) (v : α)
    (m : List (String × α)) : k ∈ alKeys (alInsert k v m) := by
  rw [alKeys_alInsert]
  split
  · next h => exact (alContains_iff_mem k m).mp h
  · exact List.mem_append_right _ (List.mem_singleton.mpr rfl)

lemma nodup_alKeys_alInsert {α : Type} (k : String) (v : α)
    (m : List (String × α)) (h : (alKeys m).Nodup) :
    (alKeys (alInsert k v m)).Nodup := by
  rw [alKeys_alInsert]
  split
  · exact h
  · next hc =>
      have hk : k ∉ alKeys m := fun hm =>
        hc ((alContains_iff_mem k m).mpr hm)
      simp [List.nodup_append, h, hk]

lemma any_alKeys_alInsert {α : Type} (p : String → Bool) (k : String) (v : α)
    (m : List (String × α)) (h : (alKeys m).any p = true) :
    (alKeys (alInsert k v m)).any p = true := by
  rw [alKeys_alInsert]
  split
  · exact h
  · simp only [List.any_append, h, Bool.true_or]

lemma has_topic_by_name_insert {name : String} (nga : NGAOutput)
    (k : String) (t : Topic)
    (hk : (strStartsWith k "topic " || strStartsWith k "start_agent ") &&
      strContains (toLowercaseRust k) (toLowercaseRust name) = true) :
    has_topic_by_name { nga with topics := alInsert k t nga.topics } name = true := by
  unfold has_topic_by_name
  rw [List.any_eq_true]
  refine ⟨k, self_mem_alKeys_alInsert k t nga.topics, ?_⟩
  simpa using hk

lemma has_topic_by_name_mono (nga : NGAOutput) (k : String) (t : Topic)
    (name : String) (h : has_topic_by_name nga name = true) :
    has_topic_by_name { nga with topics := alInsert k t nga.topics } name = true := by
  unfold has_topic_by_name at h ⊢
  exact any_alKeys_alInsert _ k t nga.topics h

/-- Invariant preservation through an Except-valued fold. -/
lemma foldlM_except_invariant {α β : Type} (f : β → α → Except String β)
    (Inv : β → Prop) (hstep : ∀ b a c, f b a = .ok c → Inv b → Inv c) :
    ∀ (l : List α) (acc r : β), l.foldlM f acc = .ok r → Inv acc → Inv r := by
  intro l
  induction l with
  | nil =>
      intro acc r h hi
      simp only [List.foldlM_nil] at h
      cases h
      exact hi
  | cons a as ih =>
      intro acc r h hi
      simp only [List.foldlM_cons] at h
      cases hfa : f acc a with
      | error e => rw [hfa] at h; simp [bind, Except.bind] at h
      | ok c =>
          rw [hfa] at h
          simp only [bind, Except.bind] at h
          exact ih c r h (hstep acc a c hfa hi)

/-- Invariant preservation through a pure fold. -/
lemma foldl_invariant {α β : Type} (g : β → α → β) (Inv : β → Prop)
    (hstep : ∀ b a, Inv b → Inv (g b a)) :
    ∀ (l : List α) (acc : β), Inv acc → Inv (l.foldl g acc) := by
  intro l
  induction l with
  | nil => intro acc hi; exact hi
  | cons a as ih => intro acc hi; exact ih (g acc a) (hstep acc a hi)

end NGA

namespace NGA

-- ===========================================================================
-- Claim C2: behaviour of the three guarded default-topic insertions.
-- ===========================================================================

lemma ensureEscalation_spec (nga : NGAOutput) (rules : Option ConversionRules)
    (hnd : (alKeys nga.topics).Nodup) :
    ∃ out, ensureEscalation nga rules = .ok out ∧
      has_topic_by_name out "escalation" = true ∧
      (alKeys out.topics).Nodup ∧
      (∀ k, k ∈ alKeys nga.topics → k ∈ alKeys out.topics) ∧
      (∀ name, has_topic_by_name nga name = true →
        has_topic_by_name out name = true) := by
  unfold ensureEscalation
  by_cases h : has_topic_by_name nga "escalation" = true
  · rw [if_neg (by simp [h])]
    exact ⟨nga, rfl, h, hnd, fun k hk => hk, fun name hn => hn⟩
  · rw [if_pos (by simp [h])]
    refine ⟨_, rfl, ?_, ?_, ?_, ?_⟩
    · exact has_topic_by_name_insert nga _ _ (by decide)
    · exact nodup_alKeys_alInsert _ _ _ hnd
    · intro k hk
      exact mem_alKeys_alInsert k _ _ _ hk
    · intro name hn
      exact has_topic_by_name_mono nga _ _ name hn

lemma ensureOffTopic_spec (nga : NGAOutput) (rules : Option ConversionRules)
    (hnd : (alKeys nga.topics).Nodup) :
    ∃ out, ensureOffTopic nga rules = .ok out ∧
      (has_topic_by_name out "off_topic" = true ∨
        has_topic_by_name out "offtopic" = true) ∧
      (alKeys out.topics).Nodup ∧
      (∀ k, k ∈ alKeys nga.topics → k ∈ alKeys out.topics) ∧
      (∀ name, has_topic_by_name nga name = true →
        has_topic_by_name out name = true) := by
  unfold ensureOffTopic
  by_cases h : (¬ has_topic_by_name nga "off_topic" = true ∧
      ¬ has_topic_by_name nga "offtopic" = true)
  · rw [if_pos h]
    refine ⟨_, rfl, ?_, ?_, ?_, ?_⟩
    · exact Or.inl (has_topic_by_name_insert nga _ _ (by decide))
    · exact nodup_alKeys_alInsert _ _ _ hnd
    · intro k hk
      exact mem_alKeys_alInsert k _ _ _ hk
    · intro name hn
      exact has_topic_by_name_mono nga _ _ name hn
  · rw [if_neg h]
    refine ⟨nga, rfl, ?_, hnd, fun k hk => hk, fun name hn => hn⟩
    by_cases h1 : has_topic_by_name nga "off_topic" = true
    · exact Or.inl h1
    · by_cases h2 : has_topic_by_name nga "offtopic" = true
      · exact Or.inr h2
      · exact absurd ⟨h1, h2⟩ h

lemma ensureAmbiguous_spec (nga : NGAOutput) (rules : Option ConversionRules)
    (hnd : (alKeys nga.topics).Nodup) :
    ∃ out, ensureAmbiguous nga rules = .ok out ∧
      has_topic_by_name out "ambiguous" = true ∧
      (alKeys out.topics).Nodup ∧
      (∀ k, k ∈ alKeys nga.topics → k ∈ alKeys out.topics) ∧
      (∀ name, has_topic_by_name nga name = true →
        has_topic_by_name out name = true) := by
  unfold ensureAmbiguous
  by_cases h : has_topic_by_name nga "ambiguous" = true
  · rw [if_neg (by simp [h])]
    exact ⟨nga, rfl, h, hnd, fun k hk => hk, fun name hn => hn⟩
  · rw [if_pos (by simp [h])]
    refine ⟨_, rfl, ?_, ?_, ?_, ?_⟩
    · exact has_topic_by_name_insert nga _ _ (by decide)
    · exact nodup_alKeys_alInsert _ _ _ hnd
    · intro k hk
      exact mem_alKeys_alInsert k _ _ _ hk
    · intro name hn
      exact has_topic_by_name_mono nga _ _ name hn

lemma ensure_default_topics_spec (nga : NGAOutput)
    (rules : Option ConversionRules)
    (hsel : "start_agent topic_selector" ∈ alKeys nga.topics)
    (hnd : (alKeys nga.topics).Nodup) :
    ∃ out, ensure_default_topics nga rules = .ok out ∧
      "start_agent topic_selector" ∈ alKeys out.topics ∧
      has_topic_by_name out "escalation" = true ∧
      (has_topic_by_name out "off_topic" = true ∨
        has_topic_by_name out "offtopic" = true) ∧
      has_topic_by_name out "ambiguous" = true ∧
      (alKeys out.topics).Nodup := by
  unfold ensure_default_topics
  obtain ⟨n1, h1, hesc1, hnd1, hmem1, hname1⟩ := ensureEscalation_spec nga rules hnd
  rw [h1]
  simp only []
  obtain ⟨n2, h2, hoff2, hnd2, hmem2, hname2⟩ := ensureOffTopic_spec n1 rules hnd1
  rw [h2]
  simp only []
  obtain ⟨n3, h3, hamb3, hnd3, hmem3, hname3⟩ := ensureAmbiguous_spec n2 rules hnd2
  refine ⟨n3, h3, ?_, ?_, ?_, hamb3, hnd3⟩
  · exact hmem3 _ (hmem2 _ (hmem1 _ hsel))
  · exact hname3 _ (hname2 _ hesc1)
  · rcases hoff2 with h | h
    · exact Or.inl (hname3 _ h)
    · exact Or.inr (hname3 _ h)

end NGA

namespace NGA

lemma insertPluginTopicStep_invariant (E : RegexEngine) (plugins : List Plugin)
    (rules : Option ConversionRules) :
    ∀ b a c, insertPluginTopicStep E plugins rules b a = .ok c →
      ("start_agent topic_selector" ∈ alKeys b ∧ (alKeys b).Nodup) →
      ("start_agent topic_selector" ∈ alKeys c ∧ (alKeys c).Nodup) := by
  intro b a c h hInv
  unfold insertPluginTopicStep at h
  by_cases hty : a.plugin_type ≠ some "TOPIC"
  · rw [if_pos hty] at h
    cases h
    exact hInv
  · rw [if_neg hty] at h
    obtain ⟨t, ht⟩ := convert_plugin_to_topic_ok E a plugins rules
    rw [ht] at h
    simp only [] at h
    cases h
    exact ⟨mem_alKeys_alInsert _ _ _ _ hInv.1, nodup_alKeys_alInsert _ _ _ hInv.2⟩

lemma convert_agentforce_format_spec (E : RegexEngine) (input : AgentforceInput)
    (rules : Option ConversionRules) (plugins : List Plugin)
    (hp : input.plugins = some plugins) :
    ∃ out, convert_agentforce_format E input rules = .ok out ∧
      "start_agent topic_selector" ∈ alKeys out.topics ∧
      has_topic_by_name out "escalation" = true ∧
      (has_topic_by_name out "off_topic" = true ∨
        has_topic_by_name out "offtopic" = true) ∧
      has_topic_by_name out "ambiguous" = true ∧
      (alKeys out.topics).Nodup := by
  unfold convert_agentforce_format
  rw [hp]
  simp only []
  obtain ⟨ts, hts⟩ : ∃ ts, create_topic_selector_from_plugins plugins rules
      = .ok ts := ⟨_, rfl⟩
  rw [hts]
  simp only []
  obtain ⟨tps, htps⟩ :=
    foldlM_except_ok (insertPluginTopicStep E plugins rules)
      (insertPluginTopicStep_ok E plugins rules) plugins
      (alInsert "start_agent topic_selector" ts [])
  rw [htps]
  simp only []
  have hinv :=
    foldlM_except_invariant (insertPluginTopicStep E plugins rules)
      (fun tps => "start_agent topic_selector" ∈ alKeys tps ∧ (alKeys tps).Nodup)
      (insertPluginTopicStep_invariant E plugins rules) plugins
      (alInsert "start_agent topic_selector" ts []) tps htps
      ⟨self_mem_alKeys_alInsert _ _ _, nodup_alKeys_alInsert _ _ _ (by simp [alKeys])⟩
  exact ensure_default_topics_spec _ rules hinv.1 hinv.2

lemma convert_simple_format_spec (E : RegexEngine) (input : AgentforceInput)
    (rules : Option ConversionRules) (topicsIn : List TopicInput)
    (ht : input.topics = some topicsIn) :
    ∃ out, convert_simple_format E input rules = .ok out ∧
      "start_agent topic_selector" ∈ alKeys out.topics ∧
      has_topic_by_name out "escalation" = true ∧
      (has_topic_by_name out "off_topic" = true ∨
        has_topic_by_name out "offtopic" = true) ∧
      has_topic_by_name out "ambiguous" = true ∧
      (alKeys out.topics).Nodup := by
  unfold convert_simple_format
  rw [ht]
  simp only []
  obtain ⟨ts, hts⟩ : ∃ ts, create_topic_selector_from_simple_topics topicsIn rules
      = .ok ts := ⟨_, rfl⟩
  rw [hts]
  simp only []
  have hinv :=
    foldl_invariant
      (fun acc topic =>
        let topic_name := sanitize_topic_name (optOr topic.name topic.id)
        let nga_topic : Topic :=
          { label := topic.label.getD (format_label topic_name)
            description := merge_description_and_scope
              topic.description topic.scope topic_name
            reasoning :=
              { instructions :=
                  (optOr topic.instructions topic.reasoning).getD
                    "Handle user requests appropriately."
                actions := none }
            actions :=
              (convert_simple_actions_detailed topic.actions rules).toOption }
        alInsert ("topic " ++ topic_name) nga_topic acc)
      (fun tps => "start_agent topic_selector" ∈ alKeys tps ∧ (alKeys tps).Nodup)
      (fun b a hInv =>
        ⟨mem_alKeys_alInsert _ _ _ _ hInv.1, nodup_alKeys_alInsert _ _ _ hInv.2⟩)
      topicsIn
      (alInsert "start_agent topic_selector" ts [])
      ⟨self_mem_alKeys_alInsert _ _ _, nodup_alKeys_alInsert _ _ _ (by simp [alKeys])⟩
  exact ensure_default_topics_spec _ rules hinv.1 hinv.2

lemma has_topic_of_key_mem (nga : NGAOutput) (k : String) (name : String)
    (hmem : k ∈ alKeys nga.topics)
    (hk : ((strStartsWith k "topic " || strStartsWith k "start_agent ") &&
      strContains (toLowercaseRust k) (toLowercaseRust name)) = true) :
    has_topic_by_name nga name = true := by
  unfold has_topic_by_name
  rw [List.any_eq_true]
  exact ⟨k, hmem, by simpa using hk⟩

lemma convert_generic_format_spec (input : AgentforceInput)
    (rules : Option ConversionRules) :
    ∃ out, convert_generic_format input rules = .ok out ∧
      "start_agent topic_selector" ∈ alKeys out.topics ∧
      has_topic_by_name out "escalation" = true ∧
      (has_topic_by_name out "off_topic" = true ∨
        has_topic_by_name out "offtopic" = true) ∧
      has_topic_by_name out "ambiguous" = true ∧
      (alKeys out.topics).Nodup := by
  refine ⟨_, rfl, ?_, ?_, ?_, ?_, ?_⟩
  · dsimp only
    exact mem_alKeys_alInsert _ _ _ _
      (mem_alKeys_alInsert _ _ _ _
        (mem_alKeys_alInsert _ _ _ _
          (self_mem_alKeys_alInsert _ _ _)))
  · apply has_topic_of_key_mem _ "topic escalation" _ ?_ (by decide)
    dsimp only
    exact mem_alKeys_alInsert _ _ _ _
      (mem_alKeys_alInsert _ _ _ _
        (self_mem_alKeys_alInsert _ _ _))
  · refine Or.inl (has_topic_of_key_mem _ "topic off_topic" _ ?_ (by decide))
    dsimp only
    exact mem_alKeys_alInsert _ _ _ _ (self_mem_alKeys_alInsert _ _ _)
  · apply has_topic_of_key_mem _ "topic ambiguous_question" _ ?_ (by decide)
    dsimp only
    exact self_mem_alKeys_alInsert _ _ _
  · dsimp only
    exact nodup_alKeys_alInsert _ _ _
      (nodup_alKeys_alInsert _ _ _
        (nodup_alKeys_alInsert _ _ _
          (nodup_alKeys_alInsert _ _ _ List.nodup_nil)))

end NGA

namespace NGA

/-- A plugin of topic type carrying only a name. -/
def topicOnlyPlugin (n : String) : Plugin :=
  ⟨n, none, none, none, none, some "TOPIC", none, none, none⟩

/-- Input with two plugins whose names both contain "escalation". -/
def c2Input : AgentforceInput :=
  { emptyInput with
    plugins := some [topicOnlyPlugin "escalation_a", topicOnlyPlugin "escalation_b"] }

/-- C2 counterexample: for the input with two topic-type plugins named
escalation_a and escalation_b, conversion produces TWO topic keys containing
the substring "escalation" (and no default escalation topic is injected), so
"the escalation topic appears exactly once (by substring match)" is false. -/
theorem c2_counterexample :
    ∃ nga, detect_and_convert nullEngine c2Input none = .ok nga ∧
      ((alKeys nga.topics).filter
        (fun k => strContains (toLowercaseRust k) "escalation")).length = 2 := by
  refine ⟨_, rfl, ?_⟩
  decide

/-- C2 (amended): every conversion yields at least one topic-selector entry;
each of the escalation / off-topic / ambiguous purposes is represented by at
least one topic key (case-insensitive substring match, with off-topic matched
by "off_topic" or "offtopic"); the topic keys are free of duplicates; and a
default topic is never injected when a matching topic already exists (each
guarded insertion leaves the document unchanged when its check finds a
match).  The original "exactly once" fails because several input topics may
match the same substring (see the counterexample). -/
theorem c2_amended_theorem :
    (∀ (E : RegexEngine) (input : AgentforceInput) (rules : Option ConversionRules),
      ∃ nga, detect_and_convert E input rules = .ok nga ∧
        "start_agent topic_selector" ∈ alKeys nga.topics ∧
        has_topic_by_name nga "escalation" = true ∧
        (has_topic_by_name nga "off_topic" = true ∨
          has_topic_by_name nga "offtopic" = true) ∧
        has_topic_by_name nga "ambiguous" = true ∧
        (alKeys nga.topics).Nodup) ∧
    (∀ (nga : NGAOutput) (rules : Option ConversionRules),
      has_topic_by_name nga "escalation" = true →
      ensureEscalation nga rules = .ok nga) ∧
    (∀ (nga : NGAOutput) (rules : Option ConversionRules),
      has_topic_by_name nga "off_topic" = true ∨
        has_topic_by_name nga "offtopic" = true →
      ensureOffTopic nga rules = .ok nga) ∧
    (∀ (nga : NGAOutput) (rules : Option ConversionRules),
      has_topic_by_name nga "ambiguous" = true →
      ensureAmbiguous nga rules = .ok nga) := by
  refine ⟨?_, ?_, ?_, ?_⟩
  · intro E input rules
    unfold detect_and_convert detectTopicsOrGeneric
    cases hp : input.plugins with
    | some plugins =>
        by_cases hne : plugins.isEmpty
        · simp only [hne, not_true, if_neg, ite_false]
          cases ht : input.topics with
          | some topics =>
              by_cases htne : topics.isEmpty
              · simp [htne, convert_generic_format_spec input rules]
              · simp [htne]
                exact convert_simple_format_spec E input rules topics ht
          | none => simp [convert_generic_format_spec input rules]
        · simp only [hne, not_false_iff, if_pos]
          exact convert_agentforce_format_spec E input rules plugins hp
    | none =>
        cases ht : input.topics with
        | some topics =>
            by_cases htne : topics.isEmpty
            · simp [htne, convert_generic_format_spec input rules]
            · simp [htne]
              exact convert_simple_format_spec E input rules topics ht
        | none => simp [convert_generic_format_spec input rules]
  · intro nga rules h
    unfold ensureEscalation
    rw [if_neg (by simp [h])]
  · intro nga rules h
    unfold ensureOffTopic
    rw [if_neg (by
      rcases h with h | h
      · exact fun hc => hc.1 h
      · exact fun hc => hc.2 h)]
  · intro nga rules h
    unfold ensureAmbiguous
    rw [if_neg (by simp [h])]

/-- A minimal topic used in the C2 witness. -/
def plainTopic : Topic :=
  { label := "T", description := "d",
    reasoning := { instructions := "i", actions := none }, actions := none }

/-- An output document that already has matching topics for all three
default purposes. -/
def c2WitnessNga : NGAOutput :=
  { system := { instructions := "s", messages := { welcome := "w", error := "e" } }
    config := { default_agent_user := "u", agent_label := "l",
                developer_name := "d", description := "ds" }
    variables_ := []
    language := { default_locale := "en_US", additional_locales := "",
                  all_additional_locales := false }
    topics := [("topic escalation_x", plainTopic),
               ("topic offtopic_y", plainTopic),
               ("topic ambiguous_z", plainTopic)]
    connections := [] }

/-- C2 witness: the amended theorem applied at concrete values; in
particular no default topic is injected into a document that already has
matching topics. -/
theorem c2_amended_witness :
    (∃ nga, detect_and_convert nullEngine emptyInput none = .ok nga ∧
      "start_agent topic_selector" ∈ alKeys nga.topics ∧
      has_topic_by_name nga "escalation" = true ∧
      (has_topic_by_name nga "off_topic" = true ∨
        has_topic_by_name nga "offtopic" = true) ∧
      has_topic_by_name nga "ambiguous" = true ∧
      (alKeys nga.topics).Nodup) ∧
    ensureEscalation c2WitnessNga none = .ok c2WitnessNga ∧
    ensureOffTopic c2WitnessNga none = .ok c2WitnessNga ∧
    ensureAmbiguous c2WitnessNga none = .ok c2WitnessNga :=
  ⟨c2_amended_theorem.1 nullEngine emptyInput none,
   c2_amended_theorem.2.1 c2WitnessNga none (by decide),
   c2_amended_theorem.2.2.1 c2WitnessNga none (Or.inr (by decide)),
   c2_amended_theorem.2.2.2 c2WitnessNga none (by decide)⟩

end NGA

namespace NGA

-- ===========================================================================
-- Claim C10: action count vs transition entries.
-- ===========================================================================

lemma alContains_alInsert_self {α : Type} (k : String) (v : α)
    (m : List (String × α)) : alContains k (alInsert k v m) = true :=
  (alContains_iff_mem _ _).mpr (self_mem_alKeys_alInsert k v m)

lemma alContains_mono {α : Type} (k k' : String) (v : α)
    (m : List (String × α)) (h : alContains k m = true) :
    alContains k (alInsert k' v m) = true :=
  (alContains_iff_mem _ _).mpr
    (mem_alKeys_alInsert k k' v m ((alContains_iff_mem _ _).mp h))

lemma guardInsert_contains_self (k : String) (v : ReasoningAction)
    (m : List (String × ReasoningAction)) :
    alContains k (guardInsert k v m) = true := by
  unfold guardInsert
  split
  · exact alContains_alInsert_self k v m
  · next h => simpa using h

lemma guardInsert_contains_mono (k k' : String) (v : ReasoningAction)
    (m : List (String × ReasoningAction)) (h : alContains k m = true) :
    alContains k (guardInsert k' v m) = true := by
  unfold guardInsert
  split
  · exact alContains_mono k k' v m h
  · exact h

lemma addGuaranteedTransitions_has_escalation
    (m : List (String × ReasoningAction)) :
    alContains "go_to_escalation" (addGuaranteedTransitions m) = true := by
  unfold addGuaranteedTransitions
  exact guardInsert_contains_mono _ _ _ _
    (guardInsert_contains_mono _ _ _ _ (guardInsert_contains_self _ _ _))

lemma escalation_topic_has_escalate (rules : Option ConversionRules) :
    ∃ t, create_default_escalation_topic rules = .ok t ∧
      ∃ ra, t.reasoning.actions = some ra ∧
        alContains "escalate_to_human" ra = true := by
  unfold create_default_escalation_topic
  refine ⟨_, rfl, _, rfl, ?_⟩
  dsimp only
  split
  · exact alContains_alInsert_self _ _ _
  · next h => simpa using h

/-- C10: for a minimal-shape input, the returned actionCount is 0 (only
detailed action maps are counted), even though the output contains
reasoning-level transition entries — the topic selector's
go_to_escalation transition and the escalation topic's escalate_to_human
entry. -/
theorem c10_action_count (E : RegexEngine) (input : AgentforceInput)
    (rules : Option ConversionRules)
    (hp : input.plugins = none ∨ input.plugins = some [])
    (ht : input.topics = none ∨ input.topics = some []) :
    ∃ nga, detect_and_convert E input rules = .ok nga ∧
      action_count nga = 0 ∧
      (∃ ts, alLookup "start_agent topic_selector" nga.topics = some ts ∧
        ∃ ra, ts.reasoning.actions = some ra ∧
          alContains "go_to_escalation" ra = true) ∧
      (∃ esc, alLookup "topic escalation" nga.topics = some esc ∧
        ∃ ra, esc.reasoning.actions = some ra ∧
          alContains "escalate_to_human" ra = true) := by
  have hred : detect_and_convert E input rules
      = convert_generic_format input rules := by
    unfold detect_and_convert detectTopicsOrGeneric
    rcases hp with hp | hp <;> rcases ht with ht | ht <;> simp [hp, ht]
  rw [hred]
  refine ⟨_, rfl, rfl, ?_, ?_⟩
  · refine ⟨_, rfl, _, rfl, ?_⟩
    exact addGuaranteedTransitions_has_escalation _
  · refine ⟨_, rfl, _, rfl, ?_⟩
    dsimp only
    split
    · exact alContains_alInsert_self _ _ _
    · next h => simpa using h

/-- C10 witness: the theorem applied at the all-absent input with no
rules. -/
theorem c10_action_count_witness :
    ∃ nga, detect_and_convert nullEngine emptyInput none = .ok nga ∧
      action_count nga = 0 ∧
      (∃ ts, alLookup "start_agent topic_selector" nga.topics = some ts ∧
        ∃ ra, ts.reasoning.actions = some ra ∧
          alContains "go_to_escalation" ra = true) ∧
      (∃ esc, alLookup "topic escalation" nga.topics = some esc ∧
        ∃ ra, esc.reasoning.actions = some ra ∧
          alContains "escalate_to_human" ra = true) :=
  c10_action_count nullEngine emptyInput none (Or.inl rfl) (Or.inl rfl)


-- ===========================================================================
-- Claim C3: first occurrence wins in variable extraction.
-- ===========================================================================

lemma alLookup_append_left {α : Type} (n : String) (l : List (String × α)) :
    ∀ (vars : List (String × α)) (v : α), alLookup n vars = some v →
      alLookup n (vars ++ l) = some v := by
  intro vars
  induction vars with
  | nil => intro v h; simp [alLookup] at h
  | cons e rest ih =>
      intro v h
      obtain ⟨k, w⟩ := e
      rw [List.cons_append]
      simp only [alLookup] at h ⊢
      by_cases hk : k = n
      · rw [if_pos hk] at h ⊢; exact h
      · rw [if_neg hk] at h ⊢; exact ih v h

lemma inputVarStep_preserves (rules : Option ConversionRules)
    (vars : List (String × Variable)) (e : String × Property)
    (n : String) (v : Variable) (h : alLookup n vars = some v) :
    alLookup n (inputVarStep rules vars e) = some v := by
  unfold inputVarStep
  dsimp only
  split
  · exact alLookup_append_left n _ vars v h
  · exact h

lemma outputVarStep_preserves (rules : Option ConversionRules) (func : Function)
    (vars : List (String × Variable)) (e : String × Property)
    (n : String) (v : Variable) (h : alLookup n vars = some v) :
    alLookup n (outputVarStep rules func vars e) = some v := by
  unfold outputVarStep
  dsimp only
  split
  · exact alLookup_append_left n _ vars v h
  · exact h

lemma extractVarsFunc_preserves (rules : Option ConversionRules)
    (func : Function) (vars : List (String × Variable))
    (n : String) (v : Variable) (h : alLookup n vars = some v) :
    alLookup n (extractVarsFunc rules vars func) = some v := by
  have hstep1 : ∀ (props : List (String × Property))
      (acc : List (String × Variable)), alLookup n acc = some v →
      alLookup n (props.foldl (inputVarStep rules) acc) = some v :=
    foldl_invariant (inputVarStep rules) (fun m => alLookup n m = some v)
      (fun b a hb => inputVarStep_preserves rules b a n v hb)
  have hstep2 : ∀ (props : List (String × Property))
      (acc : List (String × Variable)), alLookup n acc = some v →
      alLookup n (props.foldl (outputVarStep rules func) acc) = some v :=
    foldl_invariant (outputVarStep rules func) (fun m => alLookup n m = some v)
      (fun b a hb => outputVarStep_preserves rules func b a n v hb)
  unfold extractVarsFunc
  dsimp only
  cases hio : func.input_type with
  | none =>
      simp only []
      cases hoo : func.output_type with
      | none => exact h
      | some ot =>
          simp only []
          cases hop : ot.properties with
          | none => exact h
          | some props => exact hstep2 props vars h
  | some it =>
      simp only []
      cases hip : it.properties with
      | none =>
          simp only []
          cases hoo : func.output_type with
          | none => exact h
          | some ot =>
              simp only []
              cases hop : ot.properties with
              | none => exact h
              | some props => exact hstep2 props vars h
      | some propsI =>
          simp only []
          cases hoo : func.output_type with
          | none => exact hstep1 propsI vars h
          | some ot =>
              simp only []
              cases hop : ot.properties with
              | none => exact hstep1 propsI vars h
              | some propsO =>
                  exact hstep2 propsO _ (hstep1 propsI vars h)

lemma input_side_wins (rules : Option ConversionRules) (func : Function)
    (it ot : InputOutputType) (p q : String) (prop1 prop2 : Property)
    (hin : func.input_type = some it) (hip : it.properties = some [(p, prop1)])
    (hout : func.output_type = some ot) (hop : ot.properties = some [(q, prop2)])
    (hq : cleanVarName "Output:" q = cleanVarName "Input:" p)
    (hne : cleanVarName "Input:" p ≠ "") :
    alLookup (cleanVarName "Input:" p) (extractVarsFunc rules [] func) =
      some { var_type := "mutable " ++ map_property_type rules prop1.prop_type prop1
             label := prop1.title
             source := none
             description := (optOr prop1.description prop1.title).getD
               ("Variable for " ++ cleanVarName "Input:" p) } := by
  unfold extractVarsFunc
  rw [hin]
  simp only []
  rw [hip]
  simp only []
  rw [hout]
  simp only []
  rw [hop]
  simp only [List.foldl]
  unfold inputVarStep
  dsimp only
  rw [if_pos ⟨hne, by simp [alContains, alLookup]⟩]
  unfold outputVarStep
  dsimp only
  rw [if_neg (fun hcond =>
    hcond.2 (by rw [hq]; simp [alContains, alLookup, List.nil_append]))]
  simp [alLookup]

/-- C3: in variable extraction, an entry already present in the variable
table is never overwritten by any later input-side step, output-side
step, per-function pass, or function-list fold (first occurrence wins,
later occurrences are silently discarded); and for a function where an
input-side and an output-side property clean to the same nonempty name,
the extracted table binds that name to the input-side definition, whose
category is mutable. -/
theorem c3_first_wins :
    (∀ (rules : Option ConversionRules) (vars : List (String × Variable))
        (e : String × Property) (n : String) (v : Variable),
      alLookup n vars = some v →
        alLookup n (inputVarStep rules vars e) = some v) ∧
    (∀ (rules : Option ConversionRules) (func : Function)
        (vars : List (String × Variable)) (e : String × Property)
        (n : String) (v : Variable),
      alLookup n vars = some v →
        alLookup n (outputVarStep rules func vars e) = some v) ∧
    (∀ (rules : Option ConversionRules) (func : Function)
        (vars : List (String × Variable)) (n : String) (v : Variable),
      alLookup n vars = some v →
        alLookup n (extractVarsFunc rules vars func) = some v) ∧
    (∀ (rules : Option ConversionRules) (funcs : List Function)
        (vars : List (String × Variable)) (n : String) (v : Variable),
      alLookup n vars = some v →
        alLookup n (funcs.foldl (extractVarsFunc rules) vars) = some v) ∧
    (∀ (rules : Option ConversionRules) (input : AgentforceInput)
        (plugin : Plugin) (func : Function) (it ot : InputOutputType)
        (p q : String) (prop1 prop2 : Property),
      input.plugins = some [plugin] →
      plugin.functions = some [func] →
      func.input_type = some it → it.properties = some [(p, prop1)] →
      func.output_type = some ot → ot.properties = some [(q, prop2)] →
      cleanVarName "Output:" q = cleanVarName "Input:" p →
      cleanVarName "Input:" p ≠ "" →
        alLookup (cleanVarName "Input:" p) (extract_variables input rules) =
          some { var_type :=
                   "mutable " ++ map_property_type rules prop1.prop_type prop1
                 label := prop1.title
                 source := none
                 description := (optOr prop1.description prop1.title).getD
                   ("Variable for " ++ cleanVarName "Input:" p) }) := by
  refine ⟨?_, ?_, ?_, ?_, ?_⟩
  · intro rules vars e n v h; exact inputVarStep_preserves rules vars e n v h
  · intro rules func vars e n v h
    exact outputVarStep_preserves rules func vars e n v h
  · intro rules func vars n v h; exact extractVarsFunc_preserves rules func vars n v h
  · intro rules funcs vars n v h
    exact foldl_invariant (extractVarsFunc rules) (fun m => alLookup n m = some v)
      (fun b a hb => extractVarsFunc_preserves rules a b n v hb) funcs vars h
  · intro rules input plugin func it ot p q prop1 prop2 hp hf hin hip hout hop hq hne
    unfold extract_variables
    rw [hp]
    simp only [List.foldl]
    rw [hf]
    simp only [List.foldl]
    exact input_side_wins rules func it ot p q prop1 prop2 hin hip hout hop hq hne

/-- The function of the C3 witness: an input property and an output
property that clean to the same name foo. -/
def c3Func : Function :=
  { name := "f", local_dev_name := none, label := none, description := none
    invocation_target_type := none, invocation_target_name := none
    invocation_target_id := none
    input_type := some ⟨some [("Input:foo", typedProp (some "string"))], none⟩
    output_type := some ⟨some [("foo", typedProp (some "number"))], none⟩
    require_user_confirmation := none, include_in_progress_indicator := none
    progress_indicator_message := none, source := none }

/-- The plugin of the C3 witness. -/
def c3Plugin : Plugin :=
  { name := "p", local_dev_name := none, label := none, description := none
    scope := none, plugin_type := none, instruction_definitions := none
    functions := some [c3Func], can_escalate := none }

/-- The input document of the C3 witness. -/
def c3Input : AgentforceInput :=
  { emptyInput with plugins := some [c3Plugin] }

example : extract_variables c3Input none =
    [("foo", { var_type := "mutable string", label := none, source := none
               description := "Variable for foo" })] := by decide

/-- A seed table entry for the preservation parts of the C3 witness. -/
def c3Var : Variable :=
  { var_type := "mutable text", label := none, source := none
    description := "seed" }

/-- C3 witness: the theorem applied at concrete values — a seeded entry
survives every extraction step, and for the witness input the shared
cleaned name foo receives the input-side (mutable) definition. -/
theorem c3_first_wins_witness :
    alLookup "foo" (inputVarStep none [("foo", c3Var)]
      ("Input:foo", typedProp (some "string"))) = some c3Var ∧
    alLookup "foo" (outputVarStep none c3Func [("foo", c3Var)]
      ("foo", typedProp (some "number"))) = some c3Var ∧
    alLookup "foo" (extractVarsFunc none [("foo", c3Var)] c3Func) = some c3Var ∧
    alLookup "foo" ([c3Func].foldl (extractVarsFunc none) [("foo", c3Var)])
      = some c3Var ∧
    alLookup (cleanVarName "Input:" "Input:foo") (extract_variables c3Input none) =
      some { var_type := "mutable " ++ map_property_type none
               (typedProp (some "string")).prop_type (typedProp (some "string"))
             label := (typedProp (some "string")).title
             source := none
             description := (optOr (typedProp (some "string")).description
                 (typedProp (some "string")).title).getD
               ("Variable for " ++ cleanVarName "Input:" "Input:foo") } :=
  ⟨c3_first_wins.1 none [("foo", c3Var)] ("Input:foo", typedProp (some "string"))
     "foo" c3Var rfl,
   c3_first_wins.2.1 none c3Func [("foo", c3Var)]
     ("foo", typedProp (some "number")) "foo" c3Var rfl,
   c3_first_wins.2.2.1 none c3Func [("foo", c3Var)] "foo" c3Var rfl,
   c3_first_wins.2.2.2.1 none [c3Func] [("foo", c3Var)] "foo" c3Var rfl,
   c3_first_wins.2.2.2.2 none c3Input c3Plugin c3Func
     ⟨some [("Input:foo", typedProp (some "string"))], none⟩
     ⟨some [("foo", typedProp (some "number"))], none⟩
     "Input:foo" "foo" (typedProp (some "string")) (typedProp (some "number"))
     rfl rfl rfl rfl rfl rfl (by decide) (by decide)⟩


-- ===========================================================================
-- yaml_generator.rs: serialization of the NGA output document.
-- Hash maps are association lists; every map-keyed section first sorts its
-- keys (`Vec::sort`) and then emits entries by key lookup, exactly as the
-- source does.
-- ===========================================================================

/-- `get_instruction_indicator` (yaml_generator.rs lines 161-174). -/
def get_instruction_indicator (rules : Option ConversionRules) : String :=
  ((((rules.bind (·.output_format)).bind (·.reasoning)).bind
    (·.instructions_format)).bind (·.indicator)).getD "->"

/-- `get_instruction_line_prefix` (yaml_generator.rs lines 177-190). -/
def get_instruction_linePrefixVal (rules : Option ConversionRules) : String :=
  ((((rules.bind (·.output_format)).bind (·.reasoning)).bind
    (·.instructions_format)).bind (·.linePrefixVal)).getD "|"

/-- The UTF-8 byte length of one character (Rust `char::len_utf8`). -/
def utf8LenChar (c : Char) : Nat :=
  if c.toNat ≤ 0x7F then 1
  else if c.toNat ≤ 0x7FF then 2
  else if c.toNat ≤ 0xFFFF then 3
  else 4

/-- Rust `str::len`: the UTF-8 byte length. -/
def utf8Len (s : String) : Nat := s.toList.foldl (fun n c => n + utf8LenChar c) 0

/-- Rust `str::lines`: split at newlines, dropping a final empty segment and
stripping a trailing carriage return from each line. -/
def linesRust (s : String) : List String :=
  let parts := splitOnChar '\n' s.toList
  let parts2 :=
    match parts.getLast? with
    | some [] => parts.dropLast
    | _ => parts
  parts2.map (fun l =>
    String.mk (if l.getLast? = some '\r' then l.dropLast else l))

/-- `format_instructions_block` (yaml_generator.rs lines 138-158). -/
def format_instructions_block (E : RegexEngine) (instructions : String)
    (rules : Option ConversionRules) : String :=
  let indicator := get_instruction_indicator rules
  let lp := get_instruction_linePrefixVal rules
  if instructions = "" then
    "        instructions: " ++ indicator ++ "\n            " ++ lp ++
      " Handle user requests appropriately.\n"
  else
    let converted := convert_variables_in_text E (some instructions) rules
    let lines := linesRust converted
    let multi := lines.foldl
      (fun out l => out ++ "            " ++ lp ++ " " ++ l ++ "\n")
      ("        instructions: " ++ indicator ++ "\n")
    match lines with
    | [l0] =>
        if utf8Len l0 < 100 then
          "        instructions: " ++ indicator ++ "\n            " ++ lp ++
            " " ++ l0 ++ "\n"
        else multi
    | _ => multi

/-- `is_readable_source_name` (yaml_generator.rs lines 296-336). -/
def is_readable_source_name (source : String) : Bool :=
  let cs := source.toList
  if cs.contains '_' then true
  else if cs.contains ' ' then true
  else if (utf8Len source = 15 || utf8Len source = 18) &&
      cs.all (·.isAlphanum) && cs.any (·.isAlpha) && cs.any (·.isDigit) then
    false
  else if cs.all (·.isAlphanum) && hasDigitRun3 cs then false
  else true

/-- Emit a map-keyed section: sort the keys, then look each key up and emit
its entry (the `keys().collect(); sort(); for key in keys` pattern of
yaml_generator.rs). -/
def emitStep {α : Type} (m : List (String × α))
    (emit : String → α → String) (out : String) (k : String) : String :=
  match alLookup k m with
  | some v => out ++ emit k v
  | none => out

def emitSorted {α : Type} (m : List (String × α))
    (emit : String → α → String) : String :=
  (sortStrings (alKeys m)).foldl (emitStep m emit) ""

/-- One entry of the variables section (yaml_generator.rs lines 35-53). -/
def emitVariable (E : RegexEngine) (rules : Option ConversionRules)
    (name : String) (v : Variable) : String :=
  "    " ++ name ++ ": " ++ v.var_type ++ "\n" ++
  (if strStartsWith v.var_type "linked" then
    match v.source with
    | some src =>
        if ¬ strStartsWith src "@action." then
          "        source: " ++ src ++ "\n"
        else ""
    | none => ""
   else "") ++
  (match v.label with
   | some label => "        label: \"" ++ label ++ "\"\n"
   | none => "") ++
  "        description: \"" ++
    escape_yaml_string (convert_variables_in_text E (some v.description) rules)
    ++ "\"\n"

/-- One entry of a reasoning actions block (yaml_generator.rs lines
102-116). -/
def emitReasoningAction (E : RegexEngine) (rules : Option ConversionRules)
    (name : String) (a : ReasoningAction) : String :=
  "            " ++ name ++ ": " ++ a.target ++ "\n" ++
  (match a.with_params with
   | some params =>
      params.foldl
        (fun out param => out ++ "                with " ++ param ++ " = ...\n")
        ""
   | none => "") ++
  (match a.description with
   | some desc =>
      "                description: \"" ++
        escape_yaml_string (convert_variables_in_text E (some desc) rules) ++
        "\"\n"
   | none => "")

/-- One entry of a detailed inputs block (yaml_generator.rs lines 239-257). -/
def emitActionInput (E : RegexEngine) (rules : Option ConversionRules)
    (name : String) (d : ActionInputDef) : String :=
  "                \"" ++ name ++ "\": " ++ d.input_type ++ "\n" ++
  (match d.description with
   | some desc =>
      "                    description: \"" ++
        escape_yaml_string (convert_variables_in_text E (some desc) rules) ++
        "\"\n"
   | none => "") ++
  (match d.label with
   | some l => "                    label: \"" ++ l ++ "\"\n"
   | none => "") ++
  "                    is_required: " ++ format_boolean_value d.is_required ++
    "\n" ++
  "                    is_user_input: " ++ format_boolean_value d.is_user_input
    ++ "\n" ++
  (match d.complex_data_type_name with
   | some ct => "                    complex_data_type_name: \"" ++ ct ++ "\"\n"
   | none => "")

/-- One entry of a detailed outputs block (yaml_generator.rs lines
268-286). -/
def emitActionOutput (E : RegexEngine) (rules : Option ConversionRules)
    (name : String) (d : ActionOutputDef) : String :=
  "                \"" ++ name ++ "\": " ++ d.output_type ++ "\n" ++
  (match d.description with
   | some desc =>
      "                    description: \"" ++
        escape_yaml_string (convert_variables_in_text E (some desc) rules) ++
        "\"\n"
   | none => "") ++
  (match d.label with
   | some l => "                    label: \"" ++ l ++ "\"\n"
   | none => "") ++
  "                    is_displayable: " ++
    format_boolean_value d.is_displayable ++ "\n" ++
  "                    is_used_by_planner: " ++
    format_boolean_value d.is_used_by_planner ++ "\n" ++
  (match d.complex_data_type_name with
   | some ct => "                    complex_data_type_name: \"" ++ ct ++ "\"\n"
   | none => "")

/-- The optional detailed inputs block of an action (yaml_generator.rs
lines 233-259). -/
def emitActionInputsBlock (E : RegexEngine) (rules : Option ConversionRules)
    (inputs : Option (List (String × ActionInputDef))) : String :=
  match inputs with
  | some inputs =>
      if inputs.isEmpty then ""
      else "                \n            inputs:\n" ++
        emitSorted inputs (emitActionInput E rules)
  | none => ""

/-- The optional detailed outputs block of an action (yaml_generator.rs
lines 262-288). -/
def emitActionOutputsBlock (E : RegexEngine) (rules : Option ConversionRules)
    (outputs : Option (List (String × ActionOutputDef))) : String :=
  match outputs with
  | some outputs =>
      if outputs.isEmpty then ""
      else "                \n            outputs:\n" ++
        emitSorted outputs (emitActionOutput E rules)
  | none => ""

/-- One entry of a detailed actions block (yaml_generator.rs lines
198-288). -/
def emitDetailedAction (E : RegexEngine) (rules : Option ConversionRules)
    (name : String) (a : Action) : String :=
  "        " ++ name ++ ":\n" ++
  "            description: \"" ++
    escape_yaml_string (convert_variables_in_text E (some a.description) rules)
    ++ "\"\n" ++
  (match a.label with
   | some l => "            label: \"" ++ l ++ "\"\n"
   | none => "") ++
  "            require_user_confirmation: " ++
    format_boolean_value a.require_user_confirmation ++ "\n" ++
  "            include_in_progress_indicator: " ++
    format_boolean_value a.include_in_progress_indicator ++ "\n" ++
  (match a.source with
   | some src =>
      if is_readable_source_name src then
        "            source: \"" ++ src ++ "\"\n"
      else ""
   | none => "") ++
  "            target: \"" ++ a.target ++ "\"\n" ++
  (match a.progress_indicator_message with
   | some m =>
      "            progress_indicator_message: \"" ++ escape_yaml_string m ++
        "\"\n"
   | none => "") ++
  emitActionInputsBlock E rules a.inputs ++
  emitActionOutputsBlock E rules a.outputs

/-- `format_detailed_actions` (yaml_generator.rs lines 193-292). -/
def format_detailed_actions (E : RegexEngine)
    (actions : List (String × Action)) (rules : Option ConversionRules) :
    String :=
  emitSorted actions (emitDetailedAction E rules)

/-- The optional reasoning actions block of a topic (yaml_generator.rs
lines 97-119). -/
def emitReasoningActionsBlock (E : RegexEngine)
    (rules : Option ConversionRules)
    (ras : Option (List (String × ReasoningAction))) : String :=
  match ras with
  | some ras =>
      if ras.isEmpty then ""
      else "        actions:\n" ++
        emitSorted ras (emitReasoningAction E rules) ++ "\n"
  | none => ""

/-- The optional detailed actions block of a topic (yaml_generator.rs
lines 122-127). -/
def emitTopicActionsBlock (E : RegexEngine) (rules : Option ConversionRules)
    (acts : Option (List (String × Action))) : String :=
  match acts with
  | some acts =>
      if acts.isEmpty then ""
      else "\n    actions:\n" ++ format_detailed_actions E acts rules
  | none => ""

/-- One topic section (yaml_generator.rs lines 80-130). -/
def emitTopic (E : RegexEngine) (rules : Option ConversionRules)
    (key : String) (t : Topic) : String :=
  key ++ ":\n" ++
  "    label: \"" ++ t.label ++ "\"\n" ++ "\n" ++
  "    description: \"" ++
    escape_yaml_string (convert_variables_in_text E (some t.description) rules)
    ++ "\"\n" ++ "\n" ++
  "    reasoning:\n" ++
  format_instructions_block E t.reasoning.instructions rules ++
  emitReasoningActionsBlock E rules t.reasoning.actions ++
  emitTopicActionsBlock E rules t.actions ++
  "\n"

/-- The connection section: only the first sorted key starting with
"connection " is emitted (yaml_generator.rs lines 65-75). -/
def emitConnections (connections : List (String × ConnectionSection)) :
    String :=
  match (sortStrings (alKeys connections)).find?
      (fun k => strStartsWith k "connection ") with
  | some k =>
      match alLookup k connections with
      | some conn =>
          k ++ ":\n" ++ "    adaptive_response_allowed: " ++
            format_boolean_value conn.adaptive_response_allowed ++ "\n" ++ "\n"
      | none => ""
  | none => ""

/-- `generate_nga_yaml` (yaml_generator.rs lines 7-135). -/
def generate_nga_yaml (E : RegexEngine) (nga : NGAOutput)
    (rules : Option ConversionRules) : String :=
  let body :=
    "system:\n" ++
    "    instructions: \"" ++
      escape_yaml_string
        (convert_variables_in_text E (some nga.system.instructions) rules) ++
      "\"\n" ++
    "    messages:\n" ++
    "        welcome: \"" ++
      escape_yaml_string
        (convert_variables_in_text E (some nga.system.messages.welcome) rules)
      ++ "\"\n" ++
    "        error: \"" ++
      escape_yaml_string
        (convert_variables_in_text E (some nga.system.messages.error) rules)
      ++ "\"\n" ++
    "\n" ++
    "config:\n" ++
    "  default_agent_user: \"" ++ nga.config.default_agent_user ++ "\"\n" ++
    "  agent_label: \"" ++ nga.config.agent_label ++ "\"\n" ++
    "  developer_name: \"" ++ nga.config.developer_name ++ "\"\n" ++
    "  description: \"" ++
      escape_yaml_string
        (convert_variables_in_text E (some nga.config.description) rules) ++
      "\"\n" ++
    "\n" ++
    (if nga.variables_.isEmpty then ""
     else "variables:\n" ++ emitSorted nga.variables_ (emitVariable E rules)) ++
    "\n" ++
    "language:\n" ++
    "    default_locale: \"" ++ nga.language.default_locale ++ "\"\n" ++
    "    additional_locales: \"" ++ nga.language.additional_locales ++ "\"\n"
      ++
    "    all_additional_locales: " ++
      format_boolean_value nga.language.all_additional_locales ++ "\n" ++
    "\n" ++
    emitConnections nga.connections ++
    emitSorted nga.topics
      (fun k t =>
        if strStartsWith k "start_agent " || strStartsWith k "topic " then
          emitTopic E rules k t
        else "")
  trimRust body ++ "\n"


-- ===========================================================================
-- Claim C8: sort correctness and serialization determinism.
-- ===========================================================================

lemma lexLe_nil_left (bs : List Char) : lexLe [] bs = true := rfl

lemma lexLe_nil_right (a : Char) (as : List Char) :
    lexLe (a :: as) [] = false := rfl

lemma lexLe_cons_cons (a b : Char) (as bs : List Char) :
    lexLe (a :: as) (b :: bs) =
      if a = b then lexLe as bs else decide (a < b) := rfl

lemma lexLe_total : ∀ as bs : List Char,
    lexLe as bs = true ∨ lexLe bs as = true := by
  intro as
  induction as with
  | nil => intro bs; exact Or.inl (lexLe_nil_left bs)
  | cons a as ih =>
      intro bs
      cases bs with
      | nil => exact Or.inr (lexLe_nil_left _)
      | cons b bs =>
          rw [lexLe_cons_cons, lexLe_cons_cons]
          by_cases hab : a = b
          · subst hab
            rw [if_pos rfl, if_pos rfl]
            exact ih bs
          · rw [if_neg hab, if_neg (fun h => hab h.symm)]
            rcases lt_trichotomy a b with h | h | h
            · exact Or.inl (decide_eq_true h)
            · exact absurd h hab
            · exact Or.inr (decide_eq_true h)

lemma lexLe_antisymm : ∀ as bs : List Char,
    lexLe as bs = true → lexLe bs as = true → as = bs := by
  intro as
  induction as with
  | nil =>
      intro bs h1 h2
      cases bs with
      | nil => rfl
      | cons b bs => rw [lexLe_nil_right] at h2; exact absurd h2 (by simp)
  | cons a as ih =>
      intro bs h1 h2
      cases bs with
      | nil => rw [lexLe_nil_right] at h1; exact absurd h1 (by simp)
      | cons b bs =>
          rw [lexLe_cons_cons] at h1 h2
          by_cases hab : a = b
          · subst hab
            rw [if_pos rfl] at h1 h2
            rw [ih bs h1 h2]
          · rw [if_neg hab] at h1
            rw [if_neg (fun h => hab h.symm)] at h2
            have h1' := of_decide_eq_true h1
            have h2' := of_decide_eq_true h2
            exact absurd (h1'.trans h2') (lt_irrefl a)

lemma lexLe_trans : ∀ as bs cs : List Char,
    lexLe as bs = true → lexLe bs cs = true → lexLe as cs = true := by
  intro as
  induction as with
  | nil => intro bs cs h1 h2; exact lexLe_nil_left cs
  | cons a as ih =>
      intro bs cs h1 h2
      cases bs with
      | nil => rw [lexLe_nil_right] at h1; exact absurd h1 (by simp)
      | cons b bs =>
          cases cs with
          | nil => rw [lexLe_nil_right] at h2; exact absurd h2 (by simp)
          | cons c cs =>
              rw [lexLe_cons_cons] at h1 h2 ⊢
              by_cases hab : a = b
              · subst hab
                rw [if_pos rfl] at h1
                by_cases hbc : a = c
                · subst hbc
                  rw [if_pos rfl] at h2 ⊢
                  exact ih bs cs h1 h2
                · rw [if_neg hbc] at h2 ⊢
                  exact h2
              · rw [if_neg hab] at h1
                have h1' := of_decide_eq_true h1
                by_cases hbc : b = c
                · subst hbc
                  rw [if_neg hab]
                  exact decide_eq_true h1'
                · rw [if_neg hbc] at h2
                  have h2' := of_decide_eq_true h2
                  have hac : a < c := h1'.trans h2'
                  rw [if_neg (ne_of_lt hac)]
                  exact decide_eq_true hac

/-- The byte-lexicographic order as a relation on strings. -/
def slebR (a b : String) : Prop := sleb a b = true

lemma sleb_total (a b : String) : slebR a b ∨ slebR b a :=
  lexLe_total a.toList b.toList

lemma sleb_antisymm (a b : String) (h1 : slebR a b) (h2 : slebR b a) :
    a = b := by
  have h := lexLe_antisymm a.toList b.toList h1 h2
  cases a with
  | mk da =>
      cases b with
      | mk db => exact congrArg String.mk h

lemma sleb_trans (a b c : String) (h1 : slebR a b) (h2 : slebR b c) :
    slebR a c :=
  lexLe_trans a.toList b.toList c.toList h1 h2

instance : IsAntisymm String slebR := ⟨sleb_antisymm⟩

lemma insertSorted_perm (x : String) :
    ∀ l : List String, (insertSorted x l).Perm (x :: l) := by
  intro l
  induction l with
  | nil => exact List.Perm.refl _
  | cons y ys ih =>
      unfold insertSorted
      by_cases h : sleb x y = true
      · rw [if_pos h]
      · rw [if_neg h]
        exact (ih.cons y).trans (List.Perm.swap x y ys)

lemma sortStrings_perm : ∀ l : List String, (sortStrings l).Perm l := by
  intro l
  induction l with
  | nil => exact List.Perm.refl _
  | cons x xs ih =>
      unfold sortStrings
      exact (insertSorted_perm x (sortStrings xs)).trans (ih.cons x)

lemma insertSorted_sorted (x : String) :
    ∀ l : List String, l.Sorted slebR → (insertSorted x l).Sorted slebR := by
  intro l
  induction l with
  | nil => intro _; simp [insertSorted]
  | cons y ys ih =>
      intro hs
      unfold insertSorted
      by_cases h : sleb x y = true
      · rw [if_pos h]
        refine List.Pairwise.cons ?_ hs
        intro z hz
        rcases List.mem_cons.mp hz with rfl | hz2
        · exact h
        · exact sleb_trans x y z h (List.rel_of_sorted_cons hs z hz2)
      · rw [if_neg h]
        refine List.Pairwise.cons ?_ (ih hs.of_cons)
        intro z hz
        have hz2 := (insertSorted_perm x ys).mem_iff.mp hz
        rcases List.mem_cons.mp hz2 with rfl | hz3
        · rcases sleb_total y z with ht | ht
          · exact ht
          · exact absurd ht h
        · exact List.rel_of_sorted_cons hs z hz3

lemma sortStrings_sorted : ∀ l : List String, (sortStrings l).Sorted slebR := by
  intro l
  induction l with
  | nil => simp [sortStrings]
  | cons x xs ih =>
      unfold sortStrings
      exact insertSorted_sorted x _ ih

lemma sortStrings_eq_of_perm {l1 l2 : List String} (h : l1.Perm l2) :
    sortStrings l1 = sortStrings l2 :=
  List.eq_of_perm_of_sorted
    ((sortStrings_perm l1).trans (h.trans (sortStrings_perm l2).symm))
    (sortStrings_sorted l1) (sortStrings_sorted l2)


/-- Two association lists model the same hash map up to iteration order:
their key multisets agree and values under a common key are related by
`R`.  With `R := Eq` this is exactly "same map, possibly different
iteration order". -/
def mapEquivR {α : Type} (R : α → α → Prop)
    (m1 m2 : List (String × α)) : Prop :=
  (alKeys m1).Perm (alKeys m2) ∧
  ∀ k v1 v2, alLookup k m1 = some v1 → alLookup k m2 = some v2 → R v1 v2

/-- Map equivalence on optional maps (absent maps are only equivalent to
absent maps). -/
def optMapEquivR {α : Type} (R : α → α → Prop) :
    Option (List (String × α)) → Option (List (String × α)) → Prop
  | none, none => True
  | some m1, some m2 => mapEquivR R m1 m2
  | _, _ => False

lemma alLookup_isSome_of_mem_keys {α : Type} (k : String)
    (m : List (String × α)) (h : k ∈ alKeys m) :
    ∃ v, alLookup k m = some v := by
  induction m with
  | nil => simp [alKeys] at h
  | cons e rest ih =>
      obtain ⟨q, w⟩ := e
      simp only [alKeys, List.map, List.mem_cons] at h
      simp only [alLookup]
      by_cases hk : q = k
      · rw [if_pos hk]
        exact ⟨w, rfl⟩
      · rcases h with h | h
        · exact absurd h.symm hk
        · rw [if_neg hk]
          exact ih h

lemma mapEquivR_isEmpty_eq {α : Type} (R : α → α → Prop)
    (m1 m2 : List (String × α)) (h : mapEquivR R m1 m2) :
    m1.isEmpty = m2.isEmpty := by
  have hlen : m1.length = m2.length := by
    have := h.1.length_eq
    simpa [alKeys] using this
  cases m1 with
  | nil => cases m2 with
    | nil => rfl
    | cons e r => simp at hlen
  | cons e r => cases m2 with
    | nil => simp at hlen
    | cons e2 r2 => rfl

lemma emitSorted_congr {α : Type} (R : α → α → Prop)
    (m1 m2 : List (String × α)) (emit1 emit2 : String → α → String)
    (hm : mapEquivR R m1 m2)
    (hemit : ∀ k v1 v2, R v1 v2 → emit1 k v1 = emit2 k v2) :
    emitSorted m1 emit1 = emitSorted m2 emit2 := by
  unfold emitSorted
  rw [sortStrings_eq_of_perm hm.1]
  have main : ∀ (ks : List String),
      (∀ k ∈ ks, k ∈ alKeys m1 ∧ k ∈ alKeys m2) →
      ∀ out, ks.foldl (emitStep m1 emit1) out
        = ks.foldl (emitStep m2 emit2) out := by
    intro ks
    induction ks with
    | nil => intro _ out; rfl
    | cons k ks ih =>
        intro hmem out
        have hk := hmem k (List.mem_cons_self k ks)
        obtain ⟨v1, hv1⟩ := alLookup_isSome_of_mem_keys k m1 hk.1
        obtain ⟨v2, hv2⟩ := alLookup_isSome_of_mem_keys k m2 hk.2
        simp only [List.foldl]
        have hstep : emitStep m1 emit1 out k = emitStep m2 emit2 out k := by
          unfold emitStep
          rw [hv1, hv2]
          simp only []
          rw [hemit k v1 v2 (hm.2 k v1 v2 hv1 hv2)]
        rw [hstep]
        exact ih (fun q hq => hmem q (List.mem_cons_of_mem k hq)) _
  refine main _ ?_ ""
  intro k hk
  have hk2 : k ∈ alKeys m2 := (sortStrings_perm _).mem_iff.mp hk
  exact ⟨hm.1.mem_iff.mpr hk2, hk2⟩

lemma emitConnections_congr (c1 c2 : List (String × ConnectionSection))
    (h : mapEquivR Eq c1 c2) :
    emitConnections c1 = emitConnections c2 := by
  unfold emitConnections
  rw [sortStrings_eq_of_perm h.1]
  cases hf : (sortStrings (alKeys c2)).find?
      (fun k => strStartsWith k "connection ") with
  | none => rfl
  | some k =>
      simp only []
      have hkmem : k ∈ sortStrings (alKeys c2) := List.mem_of_find?_eq_some hf
      have hk2 : k ∈ alKeys c2 := (sortStrings_perm _).mem_iff.mp hkmem
      have hk1 : k ∈ alKeys c1 := h.1.mem_iff.mpr hk2
      obtain ⟨v1, hv1⟩ := alLookup_isSome_of_mem_keys k c1 hk1
      obtain ⟨v2, hv2⟩ := alLookup_isSome_of_mem_keys k c2 hk2
      rw [hv1, hv2]
      simp only []
      rw [h.2 k v1 v2 hv1 hv2]


/-- Two detailed actions model the same action up to iteration order of
their inputs and outputs maps. -/
def ActionEquiv (a1 a2 : Action) : Prop :=
  a1.description = a2.description ∧ a1.label = a2.label ∧
  a1.require_user_confirmation = a2.require_user_confirmation ∧
  a1.include_in_progress_indicator = a2.include_in_progress_indicator ∧
  a1.progress_indicator_message = a2.progress_indicator_message ∧
  a1.source = a2.source ∧ a1.target = a2.target ∧
  optMapEquivR Eq a1.inputs a2.inputs ∧ optMapEquivR Eq a1.outputs a2.outputs

/-- Two topics model the same topic up to iteration order of their
reasoning actions map and detailed actions map (and, inside the latter,
of each action's inputs and outputs maps). -/
def TopicEquiv (t1 t2 : Topic) : Prop :=
  t1.label = t2.label ∧ t1.description = t2.description ∧
  t1.reasoning.instructions = t2.reasoning.instructions ∧
  optMapEquivR Eq t1.reasoning.actions t2.reasoning.actions ∧
  optMapEquivR ActionEquiv t1.actions t2.actions

/-- Two output documents model the same document up to iteration order of
every hash map in them (variables, connections, topics, and the nested
maps of each topic). -/
def NGAEquiv (n1 n2 : NGAOutput) : Prop :=
  n1.system = n2.system ∧ n1.config = n2.config ∧ n1.language = n2.language ∧
  mapEquivR Eq n1.variables_ n2.variables_ ∧
  mapEquivR Eq n1.connections n2.connections ∧
  mapEquivR TopicEquiv n1.topics n2.topics

lemma emitActionInputsBlock_congr (E : RegexEngine)
    (rules : Option ConversionRules)
    (io1 io2 : Option (List (String × ActionInputDef)))
    (h : optMapEquivR Eq io1 io2) :
    emitActionInputsBlock E rules io1 = emitActionInputsBlock E rules io2 := by
  cases io1 with
  | none =>
      cases io2 with
      | none => rfl
      | some m2 => exact absurd h (by simp [optMapEquivR])
  | some m1 =>
      cases io2 with
      | none => exact absurd h (by simp [optMapEquivR])
      | some m2 =>
          simp only [optMapEquivR] at h
          unfold emitActionInputsBlock
          simp only []
          rw [mapEquivR_isEmpty_eq Eq m1 m2 h]
          by_cases he : m2.isEmpty = true
          · rw [if_pos he, if_pos he]
          · rw [if_neg he, if_neg he,
              emitSorted_congr Eq m1 m2 _ _ h (fun k v1 v2 hv => by rw [hv])]

lemma emitActionOutputsBlock_congr (E : RegexEngine)
    (rules : Option ConversionRules)
    (io1 io2 : Option (List (String × ActionOutputDef)))
    (h : optMapEquivR Eq io1 io2) :
    emitActionOutputsBlock E rules io1 = emitActionOutputsBlock E rules io2 := by
  cases io1 with
  | none =>
      cases io2 with
      | none => rfl
      | some m2 => exact absurd h (by simp [optMapEquivR])
  | some m1 =>
      cases io2 with
      | none => exact absurd h (by simp [optMapEquivR])
      | some m2 =>
          simp only [optMapEquivR] at h
          unfold emitActionOutputsBlock
          simp only []
          rw [mapEquivR_isEmpty_eq Eq m1 m2 h]
          by_cases he : m2.isEmpty = true
          · rw [if_pos he, if_pos he]
          · rw [if_neg he, if_neg he,
              emitSorted_congr Eq m1 m2 _ _ h (fun k v1 v2 hv => by rw [hv])]

lemma emitDetailedAction_congr (E : RegexEngine)
    (rules : Option ConversionRules) (k : String) (a1 a2 : Action)
    (h : ActionEquiv a1 a2) :
    emitDetailedAction E rules k a1 = emitDetailedAction E rules k a2 := by
  obtain ⟨hd, hl, hrc, hip, hpm, hs, ht, hin, hout⟩ := h
  unfold emitDetailedAction
  rw [hd, hl, hrc, hip, hpm, hs, ht,
    emitActionInputsBlock_congr E rules _ _ hin,
    emitActionOutputsBlock_congr E rules _ _ hout]

lemma emitReasoningActionsBlock_congr (E : RegexEngine)
    (rules : Option ConversionRules)
    (ra1 ra2 : Option (List (String × ReasoningAction)))
    (h : optMapEquivR Eq ra1 ra2) :
    emitReasoningActionsBlock E rules ra1
      = emitReasoningActionsBlock E rules ra2 := by
  cases ra1 with
  | none =>
      cases ra2 with
      | none => rfl
      | some m2 => exact absurd h (by simp [optMapEquivR])
  | some m1 =>
      cases ra2 with
      | none => exact absurd h (by simp [optMapEquivR])
      | some m2 =>
          simp only [optMapEquivR] at h
          unfold emitReasoningActionsBlock
          simp only []
          rw [mapEquivR_isEmpty_eq Eq m1 m2 h]
          by_cases he : m2.isEmpty = true
          · rw [if_pos he, if_pos he]
          · rw [if_neg he, if_neg he,
              emitSorted_congr Eq m1 m2 _ _ h (fun k v1 v2 hv => by rw [hv])]

lemma emitTopicActionsBlock_congr (E : RegexEngine)
    (rules : Option ConversionRules)
    (ta1 ta2 : Option (List (String × Action)))
    (h : optMapEquivR ActionEquiv ta1 ta2) :
    emitTopicActionsBlock E rules ta1 = emitTopicActionsBlock E rules ta2 := by
  cases ta1 with
  | none =>
      cases ta2 with
      | none => rfl
      | some m2 => exact absurd h (by simp [optMapEquivR])
  | some m1 =>
      cases ta2 with
      | none => exact absurd h (by simp [optMapEquivR])
      | some m2 =>
          simp only [optMapEquivR] at h
          unfold emitTopicActionsBlock
          simp only []
          rw [mapEquivR_isEmpty_eq ActionEquiv m1 m2 h]
          by_cases he : m2.isEmpty = true
          · rw [if_pos he, if_pos he]
          · rw [if_neg he, if_neg he]
            unfold format_detailed_actions
            rw [emitSorted_congr ActionEquiv m1 m2 _ _ h
              (fun k a1 a2 ha => emitDetailedAction_congr E rules k a1 a2 ha)]

lemma emitTopic_congr (E : RegexEngine) (rules : Option ConversionRules)
    (k : String) (t1 t2 : Topic) (h : TopicEquiv t1 t2) :
    emitTopic E rules k t1 = emitTopic E rules k t2 := by
  obtain ⟨hl, hd, hi, hra, hta⟩ := h
  unfold emitTopic
  rw [hl, hd, hi, emitReasoningActionsBlock_congr E rules _ _ hra,
    emitTopicActionsBlock_congr E rules _ _ hta]

lemma generate_nga_yaml_congr (E : RegexEngine)
    (rules : Option ConversionRules) (n1 n2 : NGAOutput)
    (h : NGAEquiv n1 n2) :
    generate_nga_yaml E n1 rules = generate_nga_yaml E n2 rules := by
  obtain ⟨hs, hc, hlang, hvars, hconn, htop⟩ := h
  have hvarsec := emitSorted_congr Eq n1.variables_ n2.variables_
    (emitVariable E rules) (emitVariable E rules) hvars
    (fun k v1 v2 hv => by rw [hv])
  have htopsec := emitSorted_congr TopicEquiv n1.topics n2.topics
    (fun k t =>
      if strStartsWith k "start_agent " || strStartsWith k "topic " then
        emitTopic E rules k t
      else "")
    (fun k t =>
      if strStartsWith k "start_agent " || strStartsWith k "topic " then
        emitTopic E rules k t
      else "") htop
    (fun k t1 t2 htv => by
      by_cases hcond :
          (strStartsWith k "start_agent " || strStartsWith k "topic ") = true
      · dsimp only
        rw [if_pos hcond, if_pos hcond]
        exact emitTopic_congr E rules k t1 t2 htv
      · dsimp only
        rw [if_neg hcond, if_neg hcond])
  unfold generate_nga_yaml
  dsimp only
  rw [hs, hc, hlang, mapEquivR_isEmpty_eq Eq _ _ hvars, hvarsec,
    emitConnections_congr _ _ hconn, htopsec]


lemma mapEquivR_nil {α : Type} (R : α → α → Prop) :
    mapEquivR R ([] : List (String × α)) [] :=
  ⟨List.Perm.refl _, fun k v1 v2 h1 _ => by simp [alLookup] at h1⟩

lemma mapEquivR_swap_pair {α : Type} (k1 k2 : String) (v1 v2 : α)
    (hne : k1 ≠ k2) :
    mapEquivR Eq [(k1, v1), (k2, v2)] [(k2, v2), (k1, v1)] := by
  constructor
  · simp only [alKeys, List.map]
    exact List.Perm.swap k2 k1 []
  · intro k w1 w2 h1 h2
    simp only [alLookup] at h1 h2
    by_cases ha : k1 = k
    · rw [if_pos ha] at h1
      rw [if_neg (fun hb => hne (ha.trans hb.symm))] at h2
      rw [if_pos ha] at h2
      rw [Option.some_inj] at h1 h2
      exact h1.symm.trans h2
    · rw [if_neg ha] at h1
      by_cases hb : k2 = k
      · rw [if_pos hb] at h1
        rw [if_pos hb] at h2
        rw [Option.some_inj] at h1 h2
        exact h1.symm.trans h2
      · rw [if_neg hb] at h1
        exact absurd h1 (by simp)

/-- C8: the conversion-plus-serialization pipeline is deterministic —
two runs of conversion on the same input and rules serialize to the same
text; and serialization depends only on the map contents, not on hash-map
iteration order: any two output documents equal up to reordering of every
map (variables, connections, topics, reasoning actions, detailed actions,
inputs, outputs) serialize to byte-identical text; and the key order
every map-keyed section emits is the ascending byte-lexicographic sort
of its keys, in a fixed section order. -/
theorem c8_serialization_deterministic :
    (∀ (E : RegexEngine) (input : AgentforceInput)
        (rules : Option ConversionRules) (n1 n2 : NGAOutput),
      detect_and_convert E input rules = .ok n1 →
      detect_and_convert E input rules = .ok n2 →
      generate_nga_yaml E n1 rules = generate_nga_yaml E n2 rules) ∧
    (∀ (E : RegexEngine) (rules : Option ConversionRules) (n1 n2 : NGAOutput),
      NGAEquiv n1 n2 →
      generate_nga_yaml E n1 rules = generate_nga_yaml E n2 rules) ∧
    (∀ keys : List String,
      (sortStrings keys).Sorted slebR ∧ (sortStrings keys).Perm keys) := by
  refine ⟨?_, ?_, ?_⟩
  · intro E input rules n1 n2 h1 h2
    rw [h1] at h2
    cases h2
    rfl
  · intro E rules n1 n2 h
    exact generate_nga_yaml_congr E rules n1 n2 h
  · intro keys
    exact ⟨sortStrings_sorted keys, sortStrings_perm keys⟩

/-- The converted minimal document of the C8 witness. -/
def c8Nga : NGAOutput :=
  match detect_and_convert nullEngine emptyInput none with
  | .ok n => n
  | .error _ =>
      { system := ⟨"", ⟨"", ""⟩⟩, config := ⟨"", "", "", ""⟩, variables_ := []
        language := ⟨"", "", false⟩, topics := [], connections := [] }

/-- Variable entries of the C8 witness. -/
def c8VarA : Variable :=
  { var_type := "mutable text", label := none, source := none
    description := "a" }

def c8VarB : Variable :=
  { var_type := "linked text", label := none
    source := some "@MessagingSession.Id", description := "b" }

/-- A document with a two-entry variables map. -/
def c8Base : NGAOutput :=
  { system := ⟨"", ⟨"", ""⟩⟩, config := ⟨"", "", "", ""⟩
    variables_ := [("a", c8VarA), ("b", c8VarB)]
    language := ⟨"", "", false⟩, topics := [], connections := [] }

/-- The same document with the variables map iterated in the other
order. -/
def c8Swapped : NGAOutput :=
  { c8Base with variables_ := [("b", c8VarB), ("a", c8VarA)] }

/-- C8 witness: the theorem applied at the minimal input (both conversion
runs serialize identically) and at a concrete pair of documents whose
variables maps are reorderings of each other. -/
theorem c8_serialization_deterministic_witness :
    generate_nga_yaml nullEngine c8Nga none
      = generate_nga_yaml nullEngine c8Nga none ∧
    generate_nga_yaml nullEngine c8Base none
      = generate_nga_yaml nullEngine c8Swapped none :=
  ⟨c8_serialization_deterministic.1 nullEngine emptyInput none c8Nga c8Nga
     rfl rfl,
   c8_serialization_deterministic.2.1 nullEngine none c8Base c8Swapped
     ⟨rfl, rfl, rfl, mapEquivR_swap_pair "a" "b" c8VarA c8VarB (by decide),
      mapEquivR_nil Eq, mapEquivR_nil TopicEquiv⟩⟩

end NGA
